import Mathlib

/-!
# A shallow embedding of the Chronos interpreter (src/chronos.rs)

This file models the lexer, parser, value model, environment chain and
tree-walking evaluator of the Chronos scripting language, translated from
`src/chronos.rs`, and proves properties of the translation.

Modelling conventions:
* `ChInt` (Rust `i32`) is modelled as `Int`; arithmetic results are reduced
  with `wrap32` (two's-complement wrap-around, i.e. release-mode Rust
  semantics).  No claim in this development depends on overflow behaviour.
* `ChFloat` (Rust `f32`) is modelled as `Rat` carrying the exact decimal
  value of the literal; binary rounding of `f32` is not modelled.  No claim
  here depends on the rounded value of a float, only on zero tests and on
  which numeric variant is produced.
* Source positions (`Position`), which the interpreter threads through
  tokens, nodes and values purely for diagnostics, are dropped.  Error
  values keep their kind and message text.
* Rust panics (`unwrap` on `None`, out-of-bounds indexing, explicit
  `panic!`) are modelled by the `Outcome.panic` constructor; runtime
  `Error` values by `Outcome.err`.
* Loops and recursion are driven by an explicit fuel parameter;
  `Outcome.timeout` marks fuel exhaustion (a modelling artefact — the Rust
  code simply keeps running).  Every evaluation step strictly decreases
  fuel, so an `Outcome.ok`/`err`/`panic` result at some fuel reflects a
  real terminating run of the source program.
* The `Rc<RefCell<Context>>` environment chain is modelled as a store
  (`State`) of `Context` records addressed by allocation index (`CtxId`);
  `Context::from_parent` appends a fresh record.
-/

namespace Chronos

/-- Error kinds, from `errors.rs` / their uses in `chronos.rs`
(`ErrType::IllegalCharError`, `InvalidSyntaxError`, `RuntimeError`,
`UndefinedOperator`). -/
inductive ErrType where
  | IllegalCharError
  | InvalidSyntaxError
  | RuntimeError
  | UndefinedOperator
deriving DecidableEq, Repr

/-- An interpreter error: kind plus message (`details`).  Positions and the
captured scope, which are diagnostic only, are dropped. -/
structure ChError where
  error_type : ErrType
  details : String
deriving DecidableEq, Repr

/-- Result of running a piece of the interpreter.  `ok`/`err` mirror Rust
`Result`; `panic` models a Rust panic; `timeout` marks fuel exhaustion. -/
inductive Outcome (α : Type) where
  | ok (a : α)
  | err (e : ChError)
  | panic (msg : String)
  | timeout
deriving DecidableEq, Repr

/-- Two's-complement wrap-around of Rust `i32` arithmetic
(release-mode overflow semantics). -/
def wrap32 (z : Int) : Int :=
  (z + 2 ^ 31) % 2 ^ 32 - 2 ^ 31

/-- `const DIGITS: &str = "0123456789"`. -/
def DIGITS : List Char := "0123456789".toList

/-- `const LETTERS: &str` — the 52 ASCII letters. -/
def LETTERS : List Char := "abcdefghijklmnopqrstuvwxyzABCDEFGHIJKLMNOPQRSTUVWXYZ".toList

/-- The single-quote character (written via `Char.ofNat` to keep the file
free of quote characters inside literals). -/
def quoteChar : Char := Char.ofNat 39

/-- The double-quote character. -/
def dquoteChar : Char := Char.ofNat 34

/-- Keywords (`enum Keyword`). -/
inductive Keyword where
  | AND | OR | NOT | IF | ELIF | ELSE | WHILE | FOR | FUNC
deriving DecidableEq, Repr

/-- `get_keyword`: the fixed keyword table. -/
def get_keyword (s : String) : Option Keyword :=
  if s = "&&" then some .AND
  else if s = "||" then some .OR
  else if s = "!" then some .NOT
  else if s = "if" then some .IF
  else if s = "elif" then some .ELIF
  else if s = "else" then some .ELSE
  else if s = "while" then some .WHILE
  else if s = "for" then some .FOR
  else if s = "fn" then some .FUNC
  else none

/-- `enum TokenType` (`ChInt` as `Int`, `ChFloat` as exact `Rat`). -/
inductive TokenType where
  | INT (v : Int)
  | FLOAT (v : Rat)
  | STRING (s : String)
  | ADD | INCRMNT | SUB | DECRMNT | MUL | DIV | POW
  | LROUND | RROUND | LCURLY | RCURLY | SEMICLN | COMMA | EOF
  | ID (s : String)
  | KEYWRD (k : Keyword)
  | ASSIGN
  | EQUAL | NEQUAL | LESS | LESSEQ | GREATER | GREATEREQ
deriving DecidableEq, Repr

/-- Tokens reduce to their `TokenType` once positions are dropped. -/
abbrev Token := TokenType

/-! ## Lexer

The lexer state is the list of characters not yet consumed; its head is
`current_char` (`None` = empty list).  `advance` is `List.drop 1`.
Each `make_*` helper is entered with the triggering character still at the
head of the list, exactly as `parse_tokens` calls it. -/

/-- Character class of `make_identifier`: `LETTERS.to_owned() + "_"`. -/
def idAllowed (c : Char) : Bool := (LETTERS ++ ['_']).contains c

/-- Character class of `make_number`: `DIGITS.to_owned() + "."`. -/
def numAllowed (c : Char) : Bool := (DIGITS ++ ['.']).contains c

/-- `Lexer::make_string`: skip the opening delimiter, take characters until
the next `"` or `'` (or end of input), then skip the closing delimiter. -/
def make_string (cs : List Char) : Token × List Char :=
  let rest := cs.drop 1
  let body := rest.takeWhile (fun c => !(c = dquoteChar || c = quoteChar))
  let rest2 := rest.dropWhile (fun c => !(c = dquoteChar || c = quoteChar))
  (TokenType.STRING (String.mk body), rest2.drop 1)

/-- `Lexer::make_add`: advance past `+`, then `unwrap` the current
character — a Rust panic when the `+` was the last character. -/
def make_add (cs : List Char) : Outcome (Token × List Char) :=
  match cs.drop 1 with
  | [] => .panic "called Option::unwrap on a None value"
  | '=' :: rest => .ok (.INCRMNT, rest)
  | rest => .ok (.ADD, rest)

/-- `Lexer::make_sub`: advance past `-`, then `unwrap` the current
character — a Rust panic when the `-` was the last character. -/
def make_sub (cs : List Char) : Outcome (Token × List Char) :=
  match cs.drop 1 with
  | [] => .panic "called Option::unwrap on a None value"
  | '=' :: rest => .ok (.DECRMNT, rest)
  | rest => .ok (.SUB, rest)

/-- `Lexer::make_not`: `!=` or the `not` keyword. -/
def make_not (cs : List Char) : Token × List Char :=
  match cs.drop 1 with
  | '=' :: rest => (.NEQUAL, rest)
  | rest => (.KEYWRD .NOT, rest)

/-- `Lexer::make_equal`: `==` or `=`. -/
def make_equal (cs : List Char) : Token × List Char :=
  match cs.drop 1 with
  | '=' :: rest => (.EQUAL, rest)
  | rest => (.ASSIGN, rest)

/-- `Lexer::make_less`: `<=` or `<`. -/
def make_less (cs : List Char) : Token × List Char :=
  match cs.drop 1 with
  | '=' :: rest => (.LESSEQ, rest)
  | rest => (.LESS, rest)

/-- `Lexer::make_greater`: `>=` or `>`. -/
def make_greater (cs : List Char) : Token × List Char :=
  match cs.drop 1 with
  | '=' :: rest => (.GREATEREQ, rest)
  | rest => (.GREATER, rest)

/-- `Lexer::make_keyword`: `&`/`|` must pair into `&&`/`||` (it grabs the
following character unconditionally), otherwise an `IllegalCharError`. -/
def make_keyword (cs : List Char) : Outcome (Token × List Char) :=
  match cs with
  | [] => .panic "called Option::unwrap on a None value"
  | c :: rest =>
    let keyword : String := match rest with
      | [] => String.mk [c]
      | d :: _ => String.mk [c, d]
    let rest2 := rest.drop 1
    match get_keyword keyword with
    | some k => .ok (.KEYWRD k, rest2)
    | none => .err ⟨.IllegalCharError,
        "Lexer: Unknown Keyword, expected \x27&&\x27, \x27||\x27 or \x27!\x27 found \x27"
          ++ keyword ++ "\x27"⟩

/-- The scanning loop of `Lexer::make_identifier`: consume characters while
they are letters or `_`, accumulating the spelling. -/
def make_identifier_loop : List Char → List Char → List Char × List Char
  | [], id => (id, [])
  | c :: rest, id =>
    if idAllowed c then make_identifier_loop rest (id ++ [c])
    else (id, c :: rest)

/-- `Lexer::make_identifier`: scan a letter/underscore run, then reclassify
through the keyword table. -/
def make_identifier (cs : List Char) : Token × List Char :=
  let (id, rest) := make_identifier_loop cs []
  let s := String.mk id
  (match get_keyword s with
   | some k => TokenType.KEYWRD k
   | none => TokenType.ID s, rest)

/-- The scanning loop of `Lexer::make_number`: consume digits and at most
one `.`; a second `.` breaks out of the loop, leaving the dot unconsumed.
Returns the accumulated spelling, the dot count and the rest. -/
def make_number_loop : List Char → Nat → List Char → List Char × Nat × List Char
  | [], dots, num => (num, dots, [])
  | c :: rest, dots, num =>
    if numAllowed c then
      if c = '.' then
        if dots ≥ 1 then (num, dots, c :: rest)
        else make_number_loop rest (dots + 1) (num ++ [c])
      else make_number_loop rest dots (num ++ [c])
    else (num, dots, c :: rest)

/-- Digit-string to integer (`num.parse::<ChInt>()` on a digit run). -/
def parseIntDigits (cs : List Char) : Int :=
  cs.foldl (fun acc c => acc * 10 + ((c.toNat : Int) - 48)) 0

/-- Decimal spelling (digits, one optional `.`) to an exact rational
(`num.parse::<ChFloat>()`, with `f32` rounding not modelled). -/
def parseDecimalRat (cs : List Char) : Rat :=
  let ip := cs.takeWhile (fun c => c ≠ '.')
  let fp := (cs.dropWhile (fun c => c ≠ '.')).drop 1
  (parseIntDigits ip : Rat) + (parseIntDigits fp : Rat) / (10 ^ fp.length : Rat)

/-- `Lexer::make_number`: zero dots yield an integer literal, one dot a
float literal.  (The char run is nonempty and well-formed whenever the main
loop enters here, so the Rust `unwrap` on `parse` always succeeds.) -/
def make_number (cs : List Char) : Token × List Char :=
  let (num, dots, rest) := make_number_loop cs 0 []
  if dots = 0 then (TokenType.INT (parseIntDigits num), rest)
  else (TokenType.FLOAT (parseDecimalRat num), rest)

/-- The body of `Lexer::parse_tokens`: the scanning loop.  Each iteration
consumes at least one character, so `cs.length + 1` fuel always suffices. -/
def parse_tokens_loop : Nat → List Char → List Token → Outcome (List Token)
  | 0, _, _ => .timeout
  | fuel + 1, cs, tokens =>
    match cs with
    | [] => .ok (tokens ++ [TokenType.EOF])
    | c :: rest =>
      if (" \t\n".toList).contains c then
        parse_tokens_loop fuel rest tokens
      else if c = '+' then
        match make_add cs with
        | .ok (t, r) => parse_tokens_loop fuel r (tokens ++ [t])
        | .err e => .err e
        | .panic m => .panic m
        | .timeout => .timeout
      else if c = '-' then
        match make_sub cs with
        | .ok (t, r) => parse_tokens_loop fuel r (tokens ++ [t])
        | .err e => .err e
        | .panic m => .panic m
        | .timeout => .timeout
      else if c = '/' then parse_tokens_loop fuel rest (tokens ++ [.DIV])
      else if c = '*' then parse_tokens_loop fuel rest (tokens ++ [.MUL])
      else if c = dquoteChar ∨ c = quoteChar then
        let (t, r) := make_string cs
        parse_tokens_loop fuel r (tokens ++ [t])
      else if c = '^' then parse_tokens_loop fuel rest (tokens ++ [.POW])
      else if c = '(' then parse_tokens_loop fuel rest (tokens ++ [.LROUND])
      else if c = ')' then parse_tokens_loop fuel rest (tokens ++ [.RROUND])
      else if c = '{' then parse_tokens_loop fuel rest (tokens ++ [.LCURLY])
      else if c = '}' then parse_tokens_loop fuel rest (tokens ++ [.RCURLY])
      else if c = ',' then parse_tokens_loop fuel rest (tokens ++ [.COMMA])
      else if c = ';' then parse_tokens_loop fuel rest (tokens ++ [.SEMICLN])
      else if c = '=' then
        let (t, r) := make_equal cs
        parse_tokens_loop fuel r (tokens ++ [t])
      else if c = '!' then
        let (t, r) := make_not cs
        parse_tokens_loop fuel r (tokens ++ [t])
      else if c = '<' then
        let (t, r) := make_less cs
        parse_tokens_loop fuel r (tokens ++ [t])
      else if c = '>' then
        let (t, r) := make_greater cs
        parse_tokens_loop fuel r (tokens ++ [t])
      else if c = '&' ∨ c = '|' then
        match make_keyword cs with
        | .ok (t, r) => parse_tokens_loop fuel r (tokens ++ [t])
        | .err e => .err e
        | .panic m => .panic m
        | .timeout => .timeout
      else if LETTERS.contains c then
        let (t, r) := make_identifier cs
        parse_tokens_loop fuel r (tokens ++ [t])
      else if DIGITS.contains c then
        let (t, r) := make_number cs
        parse_tokens_loop fuel r (tokens ++ [t])
      else
        .err ⟨.IllegalCharError, "Lexer: found \x27" ++ String.mk [c] ++ "\x27"⟩

/-- `Lexer::parse_tokens`, with always-sufficient fuel. -/
def parse_tokens (cs : List Char) : Outcome (List Token) :=
  parse_tokens_loop (cs.length + 1) cs []

/-- `Lexer::new`: unconditionally reads `text[0]` before any length check —
an index-out-of-bounds panic on empty input. -/
def Lexer_new (cs : List Char) : Outcome (List Char) :=
  match cs with
  | [] => .panic "index out of bounds: the len is 0 but the index is 0"
  | cs => .ok cs

/-- Lexing as performed at the head of `Compiler::interpret`:
`Lexer::new` followed by `parse_tokens`. -/
def tokenize (text : String) : Outcome (List Token) :=
  match Lexer_new text.toList with
  | .ok cs => parse_tokens cs
  | .err e => .err e
  | .panic m => .panic m
  | .timeout => .timeout

/-! ## Parser

`Parser` holds the token vector, an index, and `current_token`; `advance`
moves right (keeping `current_token` once past the end), `retreat` moves one
token left.  The recursive-descent functions are indexed by fuel, strictly
decreasing on every call; `Outcome.timeout` marks exhaustion. -/

/-- AST nodes (`enum Node`), with positions dropped. -/
inductive Node where
  | NUM (t : Token)
  | STRING (t : Token)
  | BINOP (left : Node) (op : Token) (right : Node)
  | UNRYOP (op : Token) (n : Node)
  | ASSIGN (id : Token) (value : Node)
  | ACCESS (id : Token)
  | IF (cases : List (Node × Node)) (else_case : Option Node)
  | WHILE (cond : Node) (body : Node)
  | FOR (c1 : Option Node) (c2 : Node) (c3 : Option Node) (body : Node)
  | FUNCDEF (name : Option Token) (args : List Token) (body : Node)
  | CALL (callee : Node) (args : List Node)

/-- Constructor tag of a `TokenType`, for `match_enum_type`
(`mem::discriminant` comparison). -/
def TokenType.discr : TokenType → Nat
  | .INT _ => 0 | .FLOAT _ => 1 | .STRING _ => 2
  | .ADD => 3 | .INCRMNT => 4 | .SUB => 5 | .DECRMNT => 6
  | .MUL => 7 | .DIV => 8 | .POW => 9
  | .LROUND => 10 | .RROUND => 11 | .LCURLY => 12 | .RCURLY => 13
  | .SEMICLN => 14 | .COMMA => 15 | .EOF => 16
  | .ID _ => 17 | .KEYWRD _ => 18 | .ASSIGN => 19
  | .EQUAL => 20 | .NEQUAL => 21 | .LESS => 22 | .LESSEQ => 23
  | .GREATER => 24 | .GREATEREQ => 25

/-- Constructor tag of a `Keyword`. -/
def Keyword.discr : Keyword → Nat
  | .AND => 0 | .OR => 1 | .NOT => 2 | .IF => 3 | .ELIF => 4
  | .ELSE => 5 | .WHILE => 6 | .FOR => 7 | .FUNC => 8

/-- `match_enum_type` on token types: same constructor, payload ignored. -/
def match_enum_type (a b : TokenType) : Bool := a.discr = b.discr

/-- Short display of a token for parser error messages (`{:?}`). -/
def tokText : TokenType → String
  | .INT v => "INT(" ++ toString v ++ ")"
  | .FLOAT _ => "FLOAT"
  | .STRING s => "STRING(" ++ s ++ ")"
  | .ADD => "ADD" | .INCRMNT => "INCRMNT" | .SUB => "SUB" | .DECRMNT => "DECRMNT"
  | .MUL => "MUL" | .DIV => "DIV" | .POW => "POW"
  | .LROUND => "LROUND" | .RROUND => "RROUND" | .LCURLY => "LCURLY" | .RCURLY => "RCURLY"
  | .SEMICLN => "SEMICLN" | .COMMA => "COMMA" | .EOF => "EOF"
  | .ID s => "ID(" ++ s ++ ")"
  | .KEYWRD _ => "KEYWRD"
  | .ASSIGN => "ASSIGN"
  | .EQUAL => "EQUAL" | .NEQUAL => "NEQUAL" | .LESS => "LESS" | .LESSEQ => "LESSEQ"
  | .GREATER => "GREATER" | .GREATEREQ => "GREATEREQ"

/-- The parser state (`struct Parser`). -/
structure ParserState where
  tokens : List Token
  token_index : Nat
  current_token : Token

/-- `Parser::new`: reads `tokens[0]` — a panic on an empty vector (never the
case downstream of the lexer, which always appends `EOF`). -/
def parser_new (tokens : List Token) : Outcome ParserState :=
  match tokens with
  | [] => .panic "index out of bounds: the len is 0 but the index is 0"
  | t :: rest => .ok ⟨t :: rest, 0, t⟩

/-- `Parser::advance`: step right; `current_token` is only updated while the
index stays in range. -/
def ParserState.advance (p : ParserState) : ParserState :=
  let i := p.token_index + 1
  { p with token_index := i,
           current_token := if i < p.tokens.length then p.tokens.getD i .EOF
             else p.current_token }

/-- `Parser::retreat`: step one token left.  (In Rust the index is `usize`;
`retreat` is only invoked immediately after an `advance`, so the index is
positive in every reachable state and the `Nat` truncation is inert.) -/
def ParserState.retreat (p : ParserState) : ParserState :=
  let i := p.token_index - 1
  { p with token_index := i, current_token := p.tokens.getD i p.current_token }

/-- `expect_token`: compare the current token by constructor. -/
def expect_token (p : ParserState) (t : TokenType) : Outcome Unit :=
  if !match_enum_type p.current_token t then
    .err ⟨.InvalidSyntaxError,
      "Parser: expected " ++ tokText t ++ " found " ++ tokText p.current_token⟩
  else .ok ()

/-- The `while` loop of `Parser::binary_operation`: as long as the current
token matches one of `ops` (or its keyword one of `keywords`), consume it
and parse a right operand with `func_b`, folding left-associatively. -/
def binary_operation_loop (func_b : ParserState → Outcome (Node × ParserState)) :
    Nat → List TokenType → List Keyword → Node → ParserState → Outcome (Node × ParserState)
  | 0, _, _, _, _ => .timeout
  | fuel + 1, ops, keywords, left, p =>
    let found := ops.any (fun t => match_enum_type t p.current_token) ||
      (match p.current_token with
       | .KEYWRD k => keywords.any (fun key => key.discr = k.discr)
       | _ => false)
    if found then
      let op_token := p.current_token
      let p1 := p.advance
      match func_b p1 with
      | .ok (right, p2) =>
        binary_operation_loop func_b fuel ops keywords (.BINOP left op_token right) p2
      | .err e => .err e
      | .panic m => .panic m
      | .timeout => .timeout
    else .ok (left, p)

/-- `Parser::binary_operation`: parse a left operand with `func_a`, then
chain with `binary_operation_loop`. -/
def binary_operation (func_a func_b : ParserState → Outcome (Node × ParserState))
    (fuel : Nat) (ops : List TokenType) (keywords : List Keyword) (p : ParserState) :
    Outcome (Node × ParserState) :=
  match func_a p with
  | .ok (left, p1) => binary_operation_loop func_b fuel ops keywords left p1
  | .err e => .err e
  | .panic m => .panic m
  | .timeout => .timeout

mutual

/-- `Parser::expression`: assignment (after one-token lookahead with
retreat) or an `and`/`or` chain of comparisons. -/
def expression : Nat → ParserState → Outcome (Node × ParserState)
  | 0, _ => .timeout
  | fuel + 1, p =>
    match p.current_token with
    | .ID _ =>
      let var := p.current_token
      let p1 := p.advance
      match p1.current_token with
      | .ASSIGN =>
        let p2 := p1.advance
        match expression fuel p2 with
        | .ok (e, p3) => .ok (.ASSIGN var e, p3)
        | .err e => .err e
        | .panic m => .panic m
        | .timeout => .timeout
      | _ =>
        binary_operation (fun q => comp_expression fuel q) (fun q => comp_expression fuel q)
          fuel [] [.AND, .OR] p1.retreat
    | _ =>
      binary_operation (fun q => comp_expression fuel q) (fun q => comp_expression fuel q)
        fuel [] [.AND, .OR] p

/-- `Parser::comp_expression`: `not`-prefixed comparison or a chain of
equality/relational operators over arithmetic expressions. -/
def comp_expression : Nat → ParserState → Outcome (Node × ParserState)
  | 0, _ => .timeout
  | fuel + 1, p =>
    match p.current_token with
    | .KEYWRD .NOT =>
      let op := p.current_token
      let p1 := p.advance
      match comp_expression fuel p1 with
      | .ok (n, p2) => .ok (.UNRYOP op n, p2)
      | .err e => .err e
      | .panic m => .panic m
      | .timeout => .timeout
    | _ =>
      binary_operation (fun q => arith_expression fuel q) (fun q => arith_expression fuel q)
        fuel [.EQUAL, .INCRMNT, .DECRMNT, .NEQUAL, .LESS, .LESSEQ, .GREATER, .GREATEREQ] [] p

/-- `Parser::arith_expression`: `+`/`-` chains over terms. -/
def arith_expression : Nat → ParserState → Outcome (Node × ParserState)
  | 0, _ => .timeout
  | fuel + 1, p =>
    binary_operation (fun q => term fuel q) (fun q => term fuel q) fuel [.ADD, .SUB] [] p

/-- `Parser::term`: `*`/`/` chains over factors. -/
def term : Nat → ParserState → Outcome (Node × ParserState)
  | 0, _ => .timeout
  | fuel + 1, p =>
    binary_operation (fun q => factor fuel q) (fun q => factor fuel q) fuel [.MUL, .DIV] [] p

/-- `Parser::factor`: unary `+`/`-`, else a power. -/
def factor : Nat → ParserState → Outcome (Node × ParserState)
  | 0, _ => .timeout
  | fuel + 1, p =>
    match p.current_token with
    | .SUB | .ADD =>
      let t := p.current_token
      let p1 := p.advance
      match factor fuel p1 with
      | .ok (f, p2) => .ok (.UNRYOP t f, p2)
      | .err e => .err e
      | .panic m => .panic m
      | .timeout => .timeout
    | _ => power fuel p

/-- `Parser::power`: `^` chains, right side re-entering `factor`. -/
def power : Nat → ParserState → Outcome (Node × ParserState)
  | 0, _ => .timeout
  | fuel + 1, p =>
    binary_operation (fun q => call fuel q) (fun q => factor fuel q) fuel [.POW] [] p

/-- The argument-list loop of `Parser::call`: while a comma follows, consume
it and parse another argument expression. -/
def call_args : Nat → List Node → ParserState → Outcome (List Node × ParserState)
  | 0, _, _ => .timeout
  | fuel + 1, acc, p =>
    match p.current_token with
    | .COMMA =>
      let p1 := p.advance
      match expression fuel p1 with
      | .ok (e, p2) => call_args fuel (acc ++ [e]) p2
      | .err e => .err e
      | .panic m => .panic m
      | .timeout => .timeout
    | _ => .ok (acc, p)

/-- `Parser::call`: an atom, optionally followed by a parenthesised
argument list. -/
def call : Nat → ParserState → Outcome (Node × ParserState)
  | 0, _ => .timeout
  | fuel + 1, p =>
    match atom fuel p with
    | .ok (res, p1) =>
      if match_enum_type p1.current_token .LROUND then
        let p2 := p1.advance
        if match_enum_type p2.current_token .RROUND then
          .ok (.CALL res [], p2.advance)
        else
          match expression fuel p2 with
          | .ok (e1, p3) =>
            match call_args fuel [e1] p3 with
            | .ok (args, p4) =>
              if !match_enum_type p4.current_token .RROUND then
                .err ⟨.InvalidSyntaxError,
                  "Parser: expected RROUND found " ++ tokText p4.current_token⟩
              else .ok (.CALL res args, p4.advance)
            | .err e => .err e
            | .panic m => .panic m
            | .timeout => .timeout
          | .err e => .err e
          | .panic m => .panic m
          | .timeout => .timeout
      else .ok (res, p1)
    | .err e => .err e
    | .panic m => .panic m
    | .timeout => .timeout

/-- `Parser::atom`: literals, identifiers, parenthesised expressions and the
four keyword-led constructs. -/
def atom : Nat → ParserState → Outcome (Node × ParserState)
  | 0, _ => .timeout
  | fuel + 1, p =>
    let t := p.current_token
    match t with
    | .INT _ | .FLOAT _ => .ok (.NUM t, p.advance)
    | .STRING _ => .ok (.STRING t, p.advance)
    | .ID _ => .ok (.ACCESS t, p.advance)
    | .LROUND =>
      let p1 := p.advance
      match expression fuel p1 with
      | .ok (e, p2) =>
        match p2.current_token with
        | .RROUND => .ok (e, p2.advance)
        | t2 => .err ⟨.InvalidSyntaxError, "Parser: expected RROUND found " ++ tokText t2⟩
      | .err e => .err e
      | .panic m => .panic m
      | .timeout => .timeout
    | .KEYWRD .IF => if_expression fuel p
    | .KEYWRD .WHILE => while_expression fuel p
    | .KEYWRD .FOR => for_expression fuel p
    | .KEYWRD .FUNC => func_expression fuel p
    | _ => .err ⟨.InvalidSyntaxError,
        "Parser: expected INT, FLOAT, IDENTIFIER or LROUND, found: " ++ tokText t⟩

/-- The `elif` loop of `Parser::if_expression`. -/
def elif_loop : Nat → List (Node × Node) → ParserState →
    Outcome (List (Node × Node) × ParserState)
  | 0, _, _ => .timeout
  | fuel + 1, cases, p =>
    match p.current_token with
    | .KEYWRD .ELIF =>
      let p1 := p.advance
      match expression fuel p1 with
      | .ok (cond, p2) =>
        match expect_token p2 .LCURLY with
        | .ok _ =>
          match expression fuel p2.advance with
          | .ok (body, p3) =>
            match expect_token p3 .RCURLY with
            | .ok _ => elif_loop fuel (cases ++ [(cond, body)]) p3.advance
            | .err e => .err e
            | .panic m => .panic m
            | .timeout => .timeout
          | .err e => .err e
          | .panic m => .panic m
          | .timeout => .timeout
        | .err e => .err e
        | .panic m => .panic m
        | .timeout => .timeout
      | .err e => .err e
      | .panic m => .panic m
      | .timeout => .timeout
    | _ => .ok (cases, p)

/-- `Parser::if_expression`: `if cond { e } (elif cond { e })* (else { e })?`. -/
def if_expression : Nat → ParserState → Outcome (Node × ParserState)
  | 0, _ => .timeout
  | fuel + 1, p =>
    match expect_token p (.KEYWRD .IF) with
    | .ok _ =>
      let p1 := p.advance
      match expression fuel p1 with
      | .ok (cond, p2) =>
        match expect_token p2 .LCURLY with
        | .ok _ =>
          match expression fuel p2.advance with
          | .ok (body, p3) =>
            match expect_token p3 .RCURLY with
            | .ok _ =>
              match elif_loop fuel [(cond, body)] p3.advance with
              | .ok (cases, p4) =>
                match p4.current_token with
                | .KEYWRD .ELSE =>
                  let p5 := p4.advance
                  match expect_token p5 .LCURLY with
                  | .ok _ =>
                    match expression fuel p5.advance with
                    | .ok (els, p6) =>
                      match expect_token p6 .RCURLY with
                      | .ok _ => .ok (.IF cases (some els), p6.advance)
                      | .err e => .err e
                      | .panic m => .panic m
                      | .timeout => .timeout
                    | .err e => .err e
                    | .panic m => .panic m
                    | .timeout => .timeout
                  | .err e => .err e
                  | .panic m => .panic m
                  | .timeout => .timeout
                | _ => .ok (.IF cases none, p4)
              | .err e => .err e
              | .panic m => .panic m
              | .timeout => .timeout
            | .err e => .err e
            | .panic m => .panic m
            | .timeout => .timeout
          | .err e => .err e
          | .panic m => .panic m
          | .timeout => .timeout
        | .err e => .err e
        | .panic m => .panic m
        | .timeout => .timeout
      | .err e => .err e
      | .panic m => .panic m
      | .timeout => .timeout
    | .err e => .err e
    | .panic m => .panic m
    | .timeout => .timeout

/-- `Parser::while_expression`: `while cond { body }`. -/
def while_expression : Nat → ParserState → Outcome (Node × ParserState)
  | 0, _ => .timeout
  | fuel + 1, p =>
    match expect_token p (.KEYWRD .WHILE) with
    | .ok _ =>
      let p1 := p.advance
      match expression fuel p1 with
      | .ok (cond, p2) =>
        match expect_token p2 .LCURLY with
        | .ok _ =>
          match expression fuel p2.advance with
          | .ok (body, p3) =>
            match expect_token p3 .RCURLY with
            | .ok _ => .ok (.WHILE cond body, p3.advance)
            | .err e => .err e
            | .panic m => .panic m
            | .timeout => .timeout
          | .err e => .err e
          | .panic m => .panic m
          | .timeout => .timeout
        | .err e => .err e
        | .panic m => .panic m
        | .timeout => .timeout
      | .err e => .err e
      | .panic m => .panic m
      | .timeout => .timeout
    | .err e => .err e
    | .panic m => .panic m
    | .timeout => .timeout

/-- `Parser::for_expression`: `for [init]; cond; [step] { body }`. -/
def for_expression : Nat → ParserState → Outcome (Node × ParserState)
  | 0, _ => .timeout
  | fuel + 1, p =>
    match expect_token p (.KEYWRD .FOR) with
    | .ok _ =>
      let p1 := p.advance
      let initRes : Outcome (Option Node × ParserState) :=
        if !match_enum_type p1.current_token .SEMICLN then
          match expression fuel p1 with
          | .ok (e, p2) => .ok (some e, p2)
          | .err e => .err e
          | .panic m => .panic m
          | .timeout => .timeout
        else .ok (none, p1)
      match initRes with
      | .ok (c1, p2) =>
        match expect_token p2 .SEMICLN with
        | .ok _ =>
          match expression fuel p2.advance with
          | .ok (c2, p3) =>
            match expect_token p3 .SEMICLN with
            | .ok _ =>
              let p4 := p3.advance
              let stepRes : Outcome (Option Node × ParserState) :=
                if !match_enum_type p4.current_token .LCURLY then
                  match expression fuel p4 with
                  | .ok (e, p5) => .ok (some e, p5)
                  | .err e => .err e
                  | .panic m => .panic m
                  | .timeout => .timeout
                else .ok (none, p4)
              match stepRes with
              | .ok (c3, p5) =>
                match expect_token p5 .LCURLY with
                | .ok _ =>
                  match expression fuel p5.advance with
                  | .ok (body, p6) =>
                    match expect_token p6 .RCURLY with
                    | .ok _ => .ok (.FOR c1 c2 c3 body, p6.advance)
                    | .err e => .err e
                    | .panic m => .panic m
                    | .timeout => .timeout
                  | .err e => .err e
                  | .panic m => .panic m
                  | .timeout => .timeout
                | .err e => .err e
                | .panic m => .panic m
                | .timeout => .timeout
              | .err e => .err e
              | .panic m => .panic m
              | .timeout => .timeout
            | .err e => .err e
            | .panic m => .panic m
            | .timeout => .timeout
          | .err e => .err e
          | .panic m => .panic m
          | .timeout => .timeout
        | .err e => .err e
        | .panic m => .panic m
        | .timeout => .timeout
      | .err e => .err e
      | .panic m => .panic m
      | .timeout => .timeout
    | .err e => .err e
    | .panic m => .panic m
    | .timeout => .timeout

/-- The parameter-list loop of `Parser::func_expression`: while a comma
follows, expect and consume another identifier. -/
def func_args : Nat → List Token → ParserState → Outcome (List Token × ParserState)
  | 0, _, _ => .timeout
  | fuel + 1, acc, p =>
    match p.current_token with
    | .COMMA =>
      let p1 := p.advance
      match expect_token p1 (.ID "") with
      | .ok _ => func_args fuel (acc ++ [p1.current_token]) p1.advance
      | .err e => .err e
      | .panic m => .panic m
      | .timeout => .timeout
    | _ => .ok (acc, p)

/-- `Parser::func_expression`: `fn [name] ( [id (, id)*] ) { body }`. -/
def func_expression : Nat → ParserState → Outcome (Node × ParserState)
  | 0, _ => .timeout
  | fuel + 1, p =>
    match expect_token p (.KEYWRD .FUNC) with
    | .ok _ =>
      let p1 := p.advance
      let (var_name, p2) : Option Token × ParserState :=
        match p1.current_token with
        | .ID _ => (some p1.current_token, p1.advance)
        | _ => (none, p1)
      match expect_token p2 .LROUND with
      | .ok _ =>
        let p3 := p2.advance
        let argsRes : Outcome (List Token × ParserState) :=
          match p3.current_token with
          | .ID _ =>
            match func_args fuel [p3.current_token] p3.advance with
            | .ok (args, p4) =>
              match expect_token p4 .RROUND with
              | .ok _ => .ok (args, p4)
              | .err e => .err e
              | .panic m => .panic m
              | .timeout => .timeout
            | .err e => .err e
            | .panic m => .panic m
            | .timeout => .timeout
          | _ =>
            match expect_token p3 .RROUND with
            | .ok _ => .ok ([], p3)
            | .err e => .err e
            | .panic m => .panic m
            | .timeout => .timeout
        match argsRes with
        | .ok (arg_tokens, p4) =>
          let p5 := p4.advance
          match expect_token p5 .LCURLY with
          | .ok _ =>
            match expression fuel p5.advance with
            | .ok (body, p6) =>
              match expect_token p6 .RCURLY with
              | .ok _ => .ok (.FUNCDEF var_name arg_tokens body, p6.advance)
              | .err e => .err e
              | .panic m => .panic m
              | .timeout => .timeout
            | .err e => .err e
            | .panic m => .panic m
            | .timeout => .timeout
          | .err e => .err e
          | .panic m => .panic m
          | .timeout => .timeout
        | .err e => .err e
        | .panic m => .panic m
        | .timeout => .timeout
      | .err e => .err e
      | .panic m => .panic m
      | .timeout => .timeout
    | .err e => .err e
    | .panic m => .panic m
    | .timeout => .timeout

end

/-- `Parser::parse`: one expression, then the stream must be at `EOF`. -/
def parse (fuel : Nat) (p : ParserState) : Outcome Node :=
  match expression fuel p with
  | .ok (n, p1) =>
    match p1.current_token with
    | .EOF => .ok n
    | t => .err ⟨.InvalidSyntaxError, "Parser: expected EOF found " ++ tokText t⟩
  | .err e => .err e
  | .panic m => .panic m
  | .timeout => .timeout

/-! ## Value model

`ChType` and its variants, with positions dropped.  Function values record
the captured defining environment as a `CtxId` into the `State` store. -/

/-- `enum NumberType`. -/
inductive NumberType where
  | INT (v : Int)
  | FLOAT (v : Rat)

/-- `struct ChNumber` (positions dropped). -/
structure ChNumber where
  value : NumberType

/-- `struct ChBool` (positions dropped). -/
structure ChBool where
  value : Bool

/-- `struct ChString` (positions dropped). -/
structure ChString where
  string : String

/-- Environment handle: index of a `Context` in the `State` store
(modelling `Rc<RefCell<Context>>`). -/
abbrev CtxId := Nat

/-- The two native functions registered by `Compiler::new`. -/
inductive RustFuncId where
  | print
  | len

/-- `enum FuncType`: a native function or a user-defined `ChronosFunc`
(name, parameter tokens, body, captured context). -/
inductive FuncType where
  | RUSTFUNC (name : String) (id : RustFuncId)
  | CHRONFUNC (name : String) (args_name : List Token) (body : Node) (context : CtxId)

/-- `struct ChFunction`. -/
structure ChFunction where
  func_type : FuncType

/-- `enum ChType`. -/
inductive ChType where
  | NUMBER (n : ChNumber)
  | STRING (s : ChString)
  | FUNCTION (f : ChFunction)
  | BOOL (b : ChBool)
  | NONE

/-- `Display` for numbers.  (`f32` formatting differs from `Rat`
formatting; no claim depends on the printed form of a float.) -/
def NumberType.display : NumberType → String
  | .INT v => toString v
  | .FLOAT v => toString v

/-- `Display` for values (function display strings approximated: the
parameter-list debug dump is omitted). -/
def ChType.display : ChType → String
  | .NUMBER n => n.value.display
  | .STRING s => s.string
  | .BOOL b => if b.value then "true" else "false"
  | .NONE => "none"
  | .FUNCTION f =>
    match f.func_type with
    | .RUSTFUNC name _ => "rust function<" ++ name ++ ">"
    | .CHRONFUNC name _ _ _ => "function<" ++ name ++ ">"

/-- The `ChOperators` trait default: fail with `UndefinedOperator` naming
the operation and the variant description. -/
def undefined_op (opName desc : String) : Outcome ChType :=
  .err ⟨.UndefinedOperator,
    "operation \x27" ++ opName ++ "\x27 not defined for type: " ++ desc⟩

/-- `<ChType as AsNumberType>::convert`.  The `STRING` and `FUNCTION` arms
call the trait-default `as_number_type`, which panics. -/
def ChType.convert : ChType → Outcome NumberType
  | .NUMBER n => .ok n.value
  | .STRING _ => .panic "value can\x27t be converted"
  | .BOOL b => .ok (.INT (if b.value then 1 else 0))
  | .FUNCTION _ => .panic "value can\x27t be converted"
  | .NONE => .err ⟨.RuntimeError, "Could not convert \x27none\x27 to Number"⟩

/-- `<ChType as AsNumberType>::get_value_type`.  `FUNCTION` and `NONE`
panic explicitly; `STRING` hits the trait-default panic. -/
def ChType.get_value_type : ChType → Outcome NumberType
  | .NUMBER n => .ok n.value
  | .STRING _ => .panic "value can\x27t be converted"
  | .BOOL b => .ok (.INT (if b.value then 1 else 0))
  | .FUNCTION f => .panic ("could not get value type of type " ++ (ChType.FUNCTION f).display)
  | .NONE => .panic "could not get value type of type none"

/-- `ChNumber::is_true`: nonzero. -/
def ChNumber.is_true (n : ChNumber) : Bool :=
  match n.value with
  | .INT v => v ≠ 0
  | .FLOAT v => v ≠ 0

/-- `ChType::is_true` (truthiness). -/
def ChType.is_true : ChType → Bool
  | .NUMBER n => n.is_true
  | .STRING s => s.string.length ≠ 0
  | .NONE => false
  | .BOOL b => b.value
  | .FUNCTION _ => true

/-- `ChNumber::operate_on`: `Int`/`Int` uses the integer op, any float on
either side promotes both to float. -/
def operate_on (v other : NumberType) (int_op : Int → Int → Int)
    (float_op : Rat → Rat → Rat) : NumberType :=
  match v, other with
  | .INT v1, .INT v2 => .INT (int_op v1 v2)
  | .FLOAT v1, .INT v2 => .FLOAT (float_op v1 (v2 : Rat))
  | .INT v1, .FLOAT v2 => .FLOAT (float_op (v1 : Rat) v2)
  | .FLOAT v1, .FLOAT v2 => .FLOAT (float_op v1 v2)

/-- Model of `f32::powf` on exact rationals: integer exponents compute the
exact power, fractional exponents (irrational results, outside the model)
return 0.  No claim depends on this function's value. -/
def ratPow (a b : Rat) : Rat :=
  if b.den = 1 then (if 0 ≤ b.num then a ^ b.num.toNat else (a ^ (-b.num).toNat)⁻¹)
  else 0

/-- `ChNumber::add`. -/
def ChNumber.add (self : ChNumber) (other : ChType) : Outcome ChType :=
  match other.convert with
  | .ok o => .ok (.NUMBER ⟨operate_on self.value o
      (fun v1 v2 => wrap32 (v1 + v2)) (fun v1 v2 => v1 + v2)⟩)
  | .err e => .err e
  | .panic m => .panic m
  | .timeout => .timeout

/-- `ChNumber::sub`. -/
def ChNumber.sub (self : ChNumber) (other : ChType) : Outcome ChType :=
  match other.convert with
  | .ok o => .ok (.NUMBER ⟨operate_on self.value o
      (fun v1 v2 => wrap32 (v1 - v2)) (fun v1 v2 => v1 - v2)⟩)
  | .err e => .err e
  | .panic m => .panic m
  | .timeout => .timeout

/-- `ChNumber::mult`. -/
def ChNumber.mult (self : ChNumber) (other : ChType) : Outcome ChType :=
  match other.convert with
  | .ok o => .ok (.NUMBER ⟨operate_on self.value o
      (fun v1 v2 => wrap32 (v1 * v2)) (fun v1 v2 => v1 * v2)⟩)
  | .err e => .err e
  | .panic m => .panic m
  | .timeout => .timeout

/-- `ChNumber::div`: peek at the raw right-hand numeric value through
`get_value_type` (a panic for `String`/`Function`/`None` operands);
if it is integer `0` or float `0.0`, fail with `Division by 0`; otherwise
convert and divide.  (Rust `i32` division truncates toward zero.) -/
def ChNumber.div (self : ChNumber) (other : ChType) : Outcome ChType :=
  match other.get_value_type with
  | .ok nt =>
    if (match nt with
        | .INT v => v == 0
        | .FLOAT v => v == 0) then
      .err ⟨.RuntimeError, "Division by 0"⟩
    else
      match other.convert with
      | .ok o => .ok (.NUMBER ⟨operate_on self.value o
          (fun v1 v2 => wrap32 (Int.tdiv v1 v2)) (fun v1 v2 => v1 / v2)⟩)
      | .err e => .err e
      | .panic m => .panic m
      | .timeout => .timeout
  | .err e => .err e
  | .panic m => .panic m
  | .timeout => .timeout

/-- `ChNumber::pow`: if the raw right-hand numeric value is exactly the
integer `0`, short-circuit to a number holding `0` (`0.as_number_type()`);
otherwise exponentiate (`try_into` failure on a negative integer exponent
defaults it to `0`). -/
def ChNumber.pow (self : ChNumber) (other : ChType) : Outcome ChType :=
  match other.get_value_type with
  | .ok nt =>
    if (match nt with
        | .INT v => v == 0
        | _ => false) then
      .ok (.NUMBER ⟨.INT 0⟩)
    else
      match other.convert with
      | .ok o => .ok (.NUMBER ⟨operate_on self.value o
          (fun v1 v2 => wrap32 (v1 ^ (if v2 < 0 then 0 else v2.toNat)))
          (fun v1 v2 => ratPow v1 v2)⟩)
      | .err e => .err e
      | .panic m => .panic m
      | .timeout => .timeout
  | .err e => .err e
  | .panic m => .panic m
  | .timeout => .timeout

/-- Mixed-subtype numeric comparison, promoting `Int` to `Rat` on the
mixed branches exactly as each `ChNumber` comparison does. -/
def numPred (v o : NumberType) (iop : Int → Int → Bool) (fop : Rat → Rat → Bool) : Bool :=
  match v, o with
  | .INT v1, .INT v2 => iop v1 v2
  | .FLOAT v1, .FLOAT v2 => fop v1 v2
  | .INT v1, .FLOAT v2 => fop (v1 : Rat) v2
  | .FLOAT v1, .INT v2 => fop v1 (v2 : Rat)

/-- `ChNumber::equal`: a failed conversion compares as `false`. -/
def ChNumber.equal (self : ChNumber) (other : ChType) : Outcome ChType :=
  match other.convert with
  | .ok v => .ok (.BOOL ⟨numPred self.value v (fun a b => a = b) (fun a b => a = b)⟩)
  | .err _ => .ok (.BOOL ⟨false⟩)
  | .panic m => .panic m
  | .timeout => .timeout

/-- `ChNumber::not_equal`: a failed conversion also yields `false`. -/
def ChNumber.not_equal (self : ChNumber) (other : ChType) : Outcome ChType :=
  match other.convert with
  | .ok v => .ok (.BOOL ⟨numPred self.value v (fun a b => a ≠ b) (fun a b => a ≠ b)⟩)
  | .err _ => .ok (.BOOL ⟨false⟩)
  | .panic m => .panic m
  | .timeout => .timeout

/-- `ChNumber::less` (conversion failure propagates via `?`). -/
def ChNumber.less (self : ChNumber) (other : ChType) : Outcome ChType :=
  match other.convert with
  | .ok v => .ok (.BOOL ⟨numPred self.value v (fun a b => a < b) (fun a b => a < b)⟩)
  | .err e => .err e
  | .panic m => .panic m
  | .timeout => .timeout

/-- `ChNumber::less_equal`. -/
def ChNumber.less_equal (self : ChNumber) (other : ChType) : Outcome ChType :=
  match other.convert with
  | .ok v => .ok (.BOOL ⟨numPred self.value v (fun a b => a ≤ b) (fun a b => a ≤ b)⟩)
  | .err e => .err e
  | .panic m => .panic m
  | .timeout => .timeout

/-- `ChNumber::greater`. -/
def ChNumber.greater (self : ChNumber) (other : ChType) : Outcome ChType :=
  match other.convert with
  | .ok v => .ok (.BOOL ⟨numPred self.value v (fun a b => b < a) (fun a b => b < a)⟩)
  | .err e => .err e
  | .panic m => .panic m
  | .timeout => .timeout

/-- `ChNumber::greater_equal`. -/
def ChNumber.greater_equal (self : ChNumber) (other : ChType) : Outcome ChType :=
  match other.convert with
  | .ok v => .ok (.BOOL ⟨numPred self.value v (fun a b => b ≤ a) (fun a b => b ≤ a)⟩)
  | .err e => .err e
  | .panic m => .panic m
  | .timeout => .timeout

/-- `ChNumber::and`: both sides at least one. -/
def ChNumber.and (self : ChNumber) (other : ChType) : Outcome ChType :=
  match other.convert with
  | .ok v => .ok (.BOOL ⟨numPred self.value v
      (fun a b => a ≥ 1 && b ≥ 1) (fun a b => a ≥ 1 && b ≥ 1)⟩)
  | .err e => .err e
  | .panic m => .panic m
  | .timeout => .timeout

/-- `ChNumber::or`. -/
def ChNumber.or (self : ChNumber) (other : ChType) : Outcome ChType :=
  match other.convert with
  | .ok v => .ok (.BOOL ⟨numPred self.value v
      (fun a b => a ≥ 1 || b ≥ 1) (fun a b => a ≥ 1 || b ≥ 1)⟩)
  | .err e => .err e
  | .panic m => .panic m
  | .timeout => .timeout

/-- `ChNumber::not`: flip the numeric value 0/1, then return the truthiness
of the flipped value as a `Bool`. -/
def ChNumber.not (self : ChNumber) : Outcome ChType :=
  let flipped : NumberType :=
    match self.value with
    | .INT value => .INT (if value ≠ 0 then 0 else 1)
    | .FLOAT value => .FLOAT (if value ≠ 0 then 0 else 1)
  .ok (.BOOL ⟨(ChNumber.mk flipped).is_true⟩)

/-- `ChNumber::negate`: flip the sign, preserving the numeric subtype. -/
def ChNumber.negate (self : ChNumber) : Outcome ChType :=
  match self.value with
  | .INT v => .ok (.NUMBER ⟨.INT (wrap32 (-v))⟩)
  | .FLOAT v => .ok (.NUMBER ⟨.FLOAT (-v)⟩)

/-- `ChString::add`: concatenate a string or a stringified number; any
other right-hand type is a `RuntimeError` (debug formatting of the operand
approximated by its display form). -/
def ChString.add (self : ChString) (other : ChType) : Outcome ChType :=
  match other with
  | .NUMBER n => .ok (.STRING ⟨self.string ++ n.value.display⟩)
  | .STRING s => .ok (.STRING ⟨self.string ++ s.string⟩)
  | _ => .err ⟨.RuntimeError, "can\x27t add " ++ other.display ++ " to String"⟩

/-- `ChBool::equal`: equal only to another `Bool` with the same flag. -/
def ChBool.equal (self : ChBool) (other : ChType) : Outcome ChType :=
  .ok (.BOOL ⟨match other with
    | .BOOL b => self.value = b.value
    | _ => false⟩)

/-- `ChBool::not_equal`. -/
def ChBool.not_equal (self : ChBool) (other : ChType) : Outcome ChType :=
  .ok (.BOOL ⟨match other with
    | .BOOL b => self.value ≠ b.value
    | _ => true⟩)

/-- `ChBool::not`. -/
def ChBool.not (self : ChBool) : Outcome ChType :=
  .ok (.BOOL ⟨!self.value⟩)

/-- `ChBool::and`. -/
def ChBool.and (self : ChBool) (other : ChType) : Outcome ChType :=
  .ok (.BOOL ⟨self.value && other.is_true⟩)

/-- `ChBool::or`. -/
def ChBool.or (self : ChBool) (other : ChType) : Outcome ChType :=
  .ok (.BOOL ⟨self.value || other.is_true⟩)

/-- `ChNone::equal`: `true` only against another `None`. -/
def ChNone.equal (other : ChType) : Outcome ChType :=
  .ok (.BOOL ⟨match other with
    | .NONE => true
    | _ => false⟩)

/-- `ChNone::not_equal`. -/
def ChNone.not_equal (other : ChType) : Outcome ChType :=
  .ok (.BOOL ⟨match other with
    | .NONE => false
    | _ => true⟩)

/-- Dispatch of `add` (`ChString` and `ChNumber` override, the rest use the
trait default). -/
def chAdd : ChType → ChType → Outcome ChType
  | .NUMBER n, other => n.add other
  | .STRING s, other => s.add other
  | .BOOL _, _ => undefined_op "add" "Bool"
  | .FUNCTION _, _ => undefined_op "add" "function"
  | .NONE, _ => undefined_op "add" "None"

/-- Dispatch of `sub` (only `ChNumber` overrides). -/
def chSub : ChType → ChType → Outcome ChType
  | .NUMBER n, other => n.sub other
  | .STRING _, _ => undefined_op "sub" "String"
  | .BOOL _, _ => undefined_op "sub" "Bool"
  | .FUNCTION _, _ => undefined_op "sub" "function"
  | .NONE, _ => undefined_op "sub" "None"

/-- Dispatch of `mult`. -/
def chMult : ChType → ChType → Outcome ChType
  | .NUMBER n, other => n.mult other
  | .STRING _, _ => undefined_op "mult" "String"
  | .BOOL _, _ => undefined_op "mult" "Bool"
  | .FUNCTION _, _ => undefined_op "mult" "function"
  | .NONE, _ => undefined_op "mult" "None"

/-- Dispatch of `div`. -/
def chDiv : ChType → ChType → Outcome ChType
  | .NUMBER n, other => n.div other
  | .STRING _, _ => undefined_op "div" "String"
  | .BOOL _, _ => undefined_op "div" "Bool"
  | .FUNCTION _, _ => undefined_op "div" "function"
  | .NONE, _ => undefined_op "div" "None"

/-- Dispatch of `pow`. -/
def chPow : ChType → ChType → Outcome ChType
  | .NUMBER n, other => n.pow other
  | .STRING _, _ => undefined_op "pow" "String"
  | .BOOL _, _ => undefined_op "pow" "Bool"
  | .FUNCTION _, _ => undefined_op "pow" "function"
  | .NONE, _ => undefined_op "pow" "None"

/-- Dispatch of `equal` (`ChNumber`, `ChBool`, `ChNone` override). -/
def chEqual : ChType → ChType → Outcome ChType
  | .NUMBER n, other => n.equal other
  | .BOOL b, other => b.equal other
  | .NONE, other => ChNone.equal other
  | .STRING _, _ => undefined_op "equal" "String"
  | .FUNCTION _, _ => undefined_op "equal" "function"

/-- Dispatch of `not_equal`. -/
def chNotEqual : ChType → ChType → Outcome ChType
  | .NUMBER n, other => n.not_equal other
  | .BOOL b, other => b.not_equal other
  | .NONE, other => ChNone.not_equal other
  | .STRING _, _ => undefined_op "not equal" "String"
  | .FUNCTION _, _ => undefined_op "not equal" "function"

/-- Dispatch of `less`. -/
def chLess : ChType → ChType → Outcome ChType
  | .NUMBER n, other => n.less other
  | .STRING _, _ => undefined_op "less" "String"
  | .BOOL _, _ => undefined_op "less" "Bool"
  | .FUNCTION _, _ => undefined_op "less" "function"
  | .NONE, _ => undefined_op "less" "None"

/-- Dispatch of `less_equal`. -/
def chLessEqual : ChType → ChType → Outcome ChType
  | .NUMBER n, other => n.less_equal other
  | .STRING _, _ => undefined_op "less equal" "String"
  | .BOOL _, _ => undefined_op "less equal" "Bool"
  | .FUNCTION _, _ => undefined_op "less equal" "function"
  | .NONE, _ => undefined_op "less equal" "None"

/-- Dispatch of `greater`. -/
def chGreater : ChType → ChType → Outcome ChType
  | .NUMBER n, other => n.greater other
  | .STRING _, _ => undefined_op "greater" "String"
  | .BOOL _, _ => undefined_op "greater" "Bool"
  | .FUNCTION _, _ => undefined_op "greater" "function"
  | .NONE, _ => undefined_op "greater" "None"

/-- Dispatch of `greater_equal`. -/
def chGreaterEqual : ChType → ChType → Outcome ChType
  | .NUMBER n, other => n.greater_equal other
  | .STRING _, _ => undefined_op "greater equal" "String"
  | .BOOL _, _ => undefined_op "greater equal" "Bool"
  | .FUNCTION _, _ => undefined_op "greater equal" "function"
  | .NONE, _ => undefined_op "greater equal" "None"

/-- Dispatch of `and` (`ChNumber` and `ChBool` override). -/
def chAnd : ChType → ChType → Outcome ChType
  | .NUMBER n, other => n.and other
  | .BOOL b, other => b.and other
  | .STRING _, _ => undefined_op "and" "String"
  | .FUNCTION _, _ => undefined_op "and" "function"
  | .NONE, _ => undefined_op "and" "None"

/-- Dispatch of `or`. -/
def chOr : ChType → ChType → Outcome ChType
  | .NUMBER n, other => n.or other
  | .BOOL b, other => b.or other
  | .STRING _, _ => undefined_op "or" "String"
  | .FUNCTION _, _ => undefined_op "or" "function"
  | .NONE, _ => undefined_op "or" "None"

/-- Dispatch of `not`. -/
def chNot : ChType → Outcome ChType
  | .NUMBER n => n.not
  | .BOOL b => b.not
  | .STRING _ => undefined_op "not" "String"
  | .FUNCTION _ => undefined_op "not" "function"
  | .NONE => undefined_op "not" "None"

/-- Dispatch of `negate` (only `ChNumber` overrides). -/
def chNegate : ChType → Outcome ChType
  | .NUMBER n => n.negate
  | .STRING _ => undefined_op "negate" "String"
  | .BOOL _ => undefined_op "negate" "Bool"
  | .FUNCTION _ => undefined_op "negate" "function"
  | .NONE => undefined_op "negate" "None"

/-- `add_equal` defaults to `add` for every variant (the only override,
`ChString::add_equal`, also just calls `add`). -/
def chAddEqual : ChType → ChType → Outcome ChType := chAdd

/-- `sub_equal` defaults to `sub` for every variant. -/
def chSubEqual : ChType → ChType → Outcome ChType := chSub

/-- `binop_chvalue`: route a binary operator token to the left operand's
capability interface. -/
def binop_chvalue (left : ChType) (op : Token) (right : ChType) : Outcome ChType :=
  match op with
  | .ADD => chAdd left right
  | .SUB => chSub left right
  | .MUL => chMult left right
  | .DIV => chDiv left right
  | .POW => chPow left right
  | .LESS => chLess left right
  | .EQUAL => chEqual left right
  | .NEQUAL => chNotEqual left right
  | .LESSEQ => chLessEqual left right
  | .GREATER => chGreater left right
  | .GREATEREQ => chGreaterEqual left right
  | .KEYWRD .AND => chAnd left right
  | .KEYWRD .OR => chOr left right
  | t => .panic ("called binop_bool on " ++ tokText t)

/-- `unryop_chvalue`: `-` is `negate`, the `not` keyword is `not`. -/
def unryop_chvalue (op : Token) (value : ChType) : Outcome ChType :=
  match op with
  | .SUB => chNegate value
  | .KEYWRD .NOT => chNot value
  | t => .panic ("called unryop_self on " ++ tokText t)

/-! ## Environment (scope chain) -/

/-- `struct SymbolTable`: name→value entries plus the immutable-name set.
(The Rust `HashMap` is unordered; an association list with unique keys
models it.) -/
structure SymbolTable where
  table : List (String × ChType)
  immutable : List String

/-- `SymbolTable::empty`. -/
def SymbolTable.empty : SymbolTable := ⟨[], []⟩

/-- `SymbolTable::get`. -/
def SymbolTable.get (st : SymbolTable) (key : String) : Option ChType :=
  match st.table.find? (fun e => e.1 = key) with
  | some e => some e.2
  | none => none

/-- Whether the table has an entry for `key` (`HashMap::contains_key`). -/
def SymbolTable.contains_key (st : SymbolTable) (key : String) : Bool :=
  st.table.any (fun e => e.1 = key)

/-- `SymbolTable::set_mut`: present and immutable → `false` (no change);
present and mutable → overwrite in place; absent → insert locally.
It never consults any parent scope. -/
def SymbolTable.set_mut (st : SymbolTable) (key : String) (value : ChType) :
    Bool × SymbolTable :=
  if st.contains_key key then
    if st.immutable.contains key then (false, st)
    else (true, ⟨st.table.map (fun e => if e.1 = key then (key, value) else e), st.immutable⟩)
  else (true, ⟨st.table ++ [(key, value)], st.immutable⟩)

/-- `SymbolTable::set`: `set_mut`, then mark the name immutable on success. -/
def SymbolTable.set (st : SymbolTable) (key : String) (value : ChType) :
    Bool × SymbolTable :=
  let (b, st1) := st.set_mut key value
  if b then (b, ⟨st1.table, st1.immutable ++ [key]⟩) else (b, st1)

/-- `struct Context` (call-site position dropped). -/
structure Context where
  display_name : String
  parent : Option CtxId
  symbol_table : SymbolTable

/-- The store of allocated contexts.  `Context::from_parent` appends, so a
parent's index is always strictly below its child's. -/
structure State where
  ctxs : List Context

/-- `Context::from_parent`: allocate a child context, returning its id. -/
def Context_from_parent (st : State) (display_name : String) (parent : CtxId) :
    CtxId × State :=
  (st.ctxs.length, ⟨st.ctxs ++ [⟨display_name, some parent, SymbolTable.empty⟩]⟩)

/-- The recursion of `Context::get`, fuel-indexed: local lookup, delegating
to the parent on a miss. -/
def ctx_get_loop : Nat → State → CtxId → String → Option ChType
  | 0, _, _, _ => none
  | fuel + 1, st, id, key =>
    match st.ctxs[id]? with
    | none => none
    | some c =>
      match c.symbol_table.get key with
      | some v => some v
      | none =>
        match c.parent with
        | some p => ctx_get_loop fuel st p key
        | none => none

/-- `Context::get`.  In every state built through `Context_from_parent` a
parent's index is strictly below its child's, so `id + 1` fuel always
reaches the root. -/
def ctx_get (st : State) (id : CtxId) (key : String) : Option ChType :=
  ctx_get_loop (id + 1) st id key

/-- `Context::set_mut`: delegate to the local symbol table only.  (The
out-of-range arm is unreachable for allocated ids.) -/
def ctx_set_mut (st : State) (id : CtxId) (key : String) (value : ChType) :
    Bool × State :=
  match st.ctxs[id]? with
  | none => (false, st)
  | some c =>
    let (b, tbl) := c.symbol_table.set_mut key value
    (b, ⟨st.ctxs.set id { c with symbol_table := tbl }⟩)

/-- `ChType::set_context`: only function values carry a context; a
user-defined function's captured context is overwritten. -/
def ChType.set_context (v : ChType) (ctx : CtxId) : ChType :=
  match v with
  | .FUNCTION ⟨.CHRONFUNC n a b _⟩ => .FUNCTION ⟨.CHRONFUNC n a b ctx⟩
  | v => v

/-! ## Evaluator -/

/-- Evaluation result: outcome plus the store after the step (the store is
also returned on the error path, where Rust would leave the shared
`Rc<RefCell<_>>` contexts in their current state). -/
abbrev EvalOut := Outcome ChType × State

/-- `visit_numb_node`. -/
def visit_numb_node : Token → Outcome ChType
  | .INT v => .ok (.NUMBER ⟨.INT v⟩)
  | .FLOAT v => .ok (.NUMBER ⟨.FLOAT v⟩)
  | _ => .panic "called visit_numb_node on a number node that has a non number token"

/-- `visit_string_node`. -/
def visit_string_node : Token → Outcome ChType
  | .STRING s => .ok (.STRING ⟨s⟩)
  | _ => .panic "called visit_string_node on a string node that has a non string token"

/-- `visit_access_node`: look up through the chain; on a hit the copy gets
the access site's context, on a miss `"<name>" is not defined`. -/
def visit_access_node (t : Token) (ctx : CtxId) (st : State) : EvalOut :=
  match t with
  | .ID var_name =>
    match ctx_get st ctx var_name with
    | some v => (.ok (v.set_context ctx), st)
    | none => (.err ⟨.RuntimeError,
        String.mk [dquoteChar] ++ var_name ++ String.mk [dquoteChar] ++ " is not defined"⟩, st)
  | _ => (.panic "called visit_access_node on a non ID token", st)

/-- `ch_len` (the `len` builtin): exactly one argument, which must be a
string; returns its length as an integer number. -/
def ch_len (args : List ChType) : Outcome ChType :=
  if args.length ≠ 1 then
    .err ⟨.RuntimeError, "Expected 1 argument found: " ++ toString args.length⟩
  else
    match args.head? with
    | some (.STRING s) => .ok (.NUMBER ⟨.INT (s.string.length : Int)⟩)
    | some arg => .err ⟨.RuntimeError, arg.display ++ " has no len"⟩
    | none => .panic "called Option::unwrap on a None value"

/-- Dispatch for the registered native functions (`ch_print` writes to
stdout, which is not modelled, and returns `None`). -/
def execRustFunc (id : RustFuncId) (args : List ChType) : Outcome ChType :=
  match id with
  | .print => .ok .NONE
  | .len => ch_len args

/-- The parameter-binding loop of `ChronosFunc::execute`: each argument
value gets the function's captured context and is bound (via `set_mut`,
result ignored) in the fresh call scope. -/
def bind_args (child fctx : CtxId) : List (Token × ChType) → State → Outcome Unit × State
  | [], st => (.ok (), st)
  | (tok, v) :: rest, st =>
    match tok with
    | .ID s => bind_args child fctx rest (ctx_set_mut st child s (v.set_context fctx)).2
    | _ => (.err ⟨.RuntimeError, "could not resolve " ++ tokText tok ++ " as an argument"⟩, st)

mutual

/-- `visit_node`: the single recursive evaluation function, fuel-indexed. -/
def visit_node : Nat → Node → CtxId → State → EvalOut
  | 0, _, _, st => (.timeout, st)
  | fuel + 1, node, ctx, st =>
    match node with
    | .NUM t => (visit_numb_node t, st)
    | .STRING t => (visit_string_node t, st)
    | .UNRYOP op n =>
      match visit_node fuel n ctx st with
      | (.ok v, st1) => (unryop_chvalue op v, st1)
      | other => other
    | .BINOP l op r =>
      if match_enum_type op .INCRMNT || match_enum_type op .DECRMNT then
        in_de_crement fuel l op r ctx st
      else
        match visit_node fuel l ctx st with
        | (.ok lv, st1) =>
          match visit_node fuel r ctx st1 with
          | (.ok rv, st2) => (binop_chvalue lv op rv, st2)
          | other => other
        | other => other
    | .ACCESS t => visit_access_node t ctx st
    | .ASSIGN id value =>
      match visit_node fuel value ctx st with
      | (.ok v, st1) =>
        match id with
        | .ID var_name =>
          let (b, st2) := ctx_set_mut st1 ctx var_name v
          if b then (.ok v, st2)
          else (.err ⟨.RuntimeError, "cannot assign " ++ v.display ++ " to const "
              ++ String.mk [dquoteChar] ++ var_name ++ String.mk [dquoteChar]⟩, st2)
        | _ => (.panic "called visit_assign_node on a non ID token", st1)
      | other => other
    | .IF cases else_case => visit_if_cases fuel cases else_case ctx st
    | .WHILE cond body =>
      let (child, st1) := Context_from_parent st "<while>" ctx
      while_loop fuel cond body ctx child st1
    | .FOR c1 c2 c3 body =>
      let (child, st1) := Context_from_parent st "<for>" ctx
      match (match c1 with
             | some c => visit_node fuel c child st1
             | none => (.ok .NONE, st1)) with
      | (.ok _, st2) => for_loop fuel c2 c3 body child st2
      | other => other
    | .FUNCDEF func_name args body =>
      match (match func_name with
             | some (.ID s) => Outcome.ok s
             | some tok => .err ⟨.InvalidSyntaxError, "expected ID found " ++ tokText tok⟩
             | none => .ok "lambda") with
      | .ok name =>
        let func : ChType := .FUNCTION ⟨.CHRONFUNC name args body ctx⟩
        match func_name with
        | some _ => (.ok func, (ctx_set_mut st ctx name func).2)
        | none => (.ok func, st)
      | .err e => (.err e, st)
      | .panic m => (.panic m, st)
      | .timeout => (.timeout, st)
    | .CALL func_name args =>
      let cname : Option String :=
        match func_name with
        | .ACCESS (.ID s) => some s
        | _ => none
      match visit_node fuel func_name ctx st with
      | (.ok c, st1) =>
        match c with
        | .FUNCTION func =>
          match eval_args fuel args ctx st1 [] with
          | (.ok arg_values, st2) =>
            execute_call fuel ⟨match func.func_type with
              | .CHRONFUNC n a b _ => .CHRONFUNC n a b ctx
              | other => other⟩ arg_values cname st2
          | (.err e, st2) => (.err e, st2)
          | (.panic m, st2) => (.panic m, st2)
          | (.timeout, st2) => (.timeout, st2)
        | _ => (.err ⟨.RuntimeError, "expected FUNCTION found " ++ c.display⟩, st1)
      | other => other

termination_by structural fuel _node _ctx _st => fuel
/-- The condition-case loop of `visit_if_node`: first truthy condition wins,
otherwise the else body, otherwise `None`. -/
def visit_if_cases : Nat → List (Node × Node) → Option Node → CtxId → State → EvalOut
  | 0, _, _, _, st => (.timeout, st)
  | fuel + 1, [], else_case, ctx, st =>
    match else_case with
    | some node => visit_node fuel node ctx st
    | none => (.ok .NONE, st)
  | fuel + 1, (condition, expr) :: rest, else_case, ctx, st =>
    match visit_node fuel condition ctx st with
    | (.ok cond, st1) =>
      if cond.is_true then visit_node fuel expr ctx st1
      else visit_if_cases fuel rest else_case ctx st1
    | other => other

termination_by structural fuel _cases _ec _ctx _st => fuel
/-- The loop of `visit_while_node`: the condition is evaluated in the
*outer* context, the body in the construct's single child context. -/
def while_loop : Nat → Node → Node → CtxId → CtxId → State → EvalOut
  | 0, _, _, _, _, st => (.timeout, st)
  | fuel + 1, cond, body, outer, child, st =>
    match visit_node fuel cond outer st with
    | (.ok v, st1) =>
      if v.is_true then
        match visit_node fuel body child st1 with
        | (.ok _, st2) => while_loop fuel cond body outer child st2
        | other => other
      else (.ok .NONE, st1)
    | other => other

termination_by structural fuel _cond _body _outer _child _st => fuel
/-- The loop of `visit_for_node`: condition, body and step are all
evaluated in the construct's single child context. -/
def for_loop : Nat → Node → Option Node → Node → CtxId → State → EvalOut
  | 0, _, _, _, _, st => (.timeout, st)
  | fuel + 1, c2, c3, body, child, st =>
    match visit_node fuel c2 child st with
    | (.ok v, st1) =>
      if v.is_true then
        match visit_node fuel body child st1 with
        | (.ok _, st2) =>
          match (match c3 with
                 | some c => visit_node fuel c child st2
                 | none => (.ok .NONE, st2)) with
          | (.ok _, st3) => for_loop fuel c2 c3 body child st3
          | other => other
        | other => other
      else (.ok .NONE, st1)
    | other => other

termination_by structural fuel _ca _cb _body _child _st => fuel
/-- `in_de_crement`: `+=`/`-=`.  Both sides are evaluated first; the
left-hand *node* must be a variable access (a syntactic lvalue), then the
combined value is rebound via `set_mut` (result ignored). -/
def in_de_crement : Nat → Node → Token → Node → CtxId → State → EvalOut
  | 0, _, _, _, _, st => (.timeout, st)
  | fuel + 1, left_node, op, right_node, ctx, st =>
    match visit_node fuel left_node ctx st with
    | (.ok left, st1) =>
      match visit_node fuel right_node ctx st1 with
      | (.ok right, st2) =>
        match left_node with
        | .ACCESS var_name =>
          match (match op with
                 | .INCRMNT => chAddEqual left right
                 | .DECRMNT => chSubEqual left right
                 | t => .panic ("called in/decrement on " ++ tokText t)) with
          | .ok res =>
            match var_name with
            | .ID n => (.ok res, (ctx_set_mut st2 ctx n res).2)
            | _ => (.panic "could not resolve name", st2)
          | .err e => (.err e, st2)
          | .panic m => (.panic m, st2)
          | .timeout => (.timeout, st2)
        | _ => (.err ⟨.RuntimeError, "expected LVALUE"⟩, st2)
      | other => other
    | other => other

termination_by structural fuel _l _op _r _ctx _st => fuel
/-- Argument evaluation loop of `visit_call_node` (left to right). -/
def eval_args : Nat → List Node → CtxId → State → List ChType →
    Outcome (List ChType) × State
  | 0, _, _, st, _ => (.timeout, st)
  | _ + 1, [], _, st, acc => (.ok acc, st)
  | fuel + 1, arg :: rest, ctx, st, acc =>
    match visit_node fuel arg ctx st with
    | (.ok v, st1) => eval_args fuel rest ctx st1 (acc ++ [v])
    | (.err e, st1) => (.err e, st1)
    | (.panic m, st1) => (.panic m, st1)
    | (.timeout, st1) => (.timeout, st1)

termination_by structural fuel _args _ctx _st _acc => fuel
/-- `ChFunction::execute`.  For a user-defined function: allocate the call
scope (parented at the function's context field), check the arity, bind
parameters, evaluate the body there.  (`visit_call_node` has already
overwritten the context field with the caller's context via `set_context`.) -/
def execute_call : Nat → ChFunction → List ChType → Option String → State → EvalOut
  | 0, _, _, _, st => (.timeout, st)
  | fuel + 1, func, args, name, st =>
    match func.func_type with
    | .RUSTFUNC _ id => (execRustFunc id args, st)
    | .CHRONFUNC fname args_name body fctx =>
      let (child, st1) := Context_from_parent st
        ("<function: " ++ (name.getD fname) ++ ">") fctx
      if args.length ≠ args_name.length then
        (.err ⟨.RuntimeError, "expected " ++ toString args_name.length
          ++ " arguments, found " ++ toString args.length
          ++ " in function \x27" ++ fname ++ "\x27"⟩, st1)
      else
        match bind_args child fctx (args_name.zip args) st1 with
        | (.ok _, st2) => visit_node fuel body child st2
        | (.err e, st2) => (.err e, st2)
        | (.panic m, st2) => (.panic m, st2)
        | (.timeout, st2) => (.timeout, st2)

termination_by structural fuel _func _args _name _st => fuel
end

/-! ## Compiler -/

/-- The symbol table seeded by `Compiler::new` (`SymbolTable::set` marks
each built-in immutable). -/
def global_table : SymbolTable :=
  let t1 := (SymbolTable.empty.set "false" (.BOOL ⟨false⟩)).2
  let t2 := (t1.set "true" (.BOOL ⟨true⟩)).2
  let t3 := (t2.set "none" .NONE).2
  let t4 := (t3.set "print" (.FUNCTION ⟨.RUSTFUNC "print" .print⟩)).2
  (t4.set "len" (.FUNCTION ⟨.RUSTFUNC "len" .len⟩)).2

/-- `Compiler::new`: the store holding only the seeded `<module>` context,
which has id `0`. -/
def compiler_new : State :=
  ⟨[⟨"<module>", none, global_table⟩]⟩

/-- `Compiler::interpret`: lex, parse, evaluate against the global context.
`fuel` bounds parser and evaluator recursion depth (a modelling device; any
non-`timeout` outcome is fuel-independent real behaviour). -/
def interpret (fuel : Nat) (text : String) (st : State) : EvalOut :=
  match tokenize text with
  | .ok tokens =>
    match parser_new tokens with
    | .ok p =>
      match parse fuel p with
      | .ok ast => visit_node fuel ast 0 st
      | .err e => (.err e, st)
      | .panic m => (.panic m, st)
      | .timeout => (.timeout, st)
    | .err e => (.err e, st)
    | .panic m => (.panic m, st)
    | .timeout => (.timeout, st)
  | .err e => (.err e, st)
  | .panic m => (.panic m, st)
  | .timeout => (.timeout, st)

/-! ## Fixtures for the loop-scoping analysis

Concrete programs and states, built through the interpreter itself, used to
observe while/for scoping. -/

/-- The condition `x < 1`, as parsed from source. -/
def condXltOne : Node := .BINOP (.ACCESS (.ID "x")) .LESS (.NUM (.INT 1))

/-- The body `x = 1`, as parsed from source. -/
def bodyXisOne : Node := .ASSIGN (.ID "x") (.NUM (.INT 1))

/-- `for ; x < 1; { x = 1 }`. -/
def forProg : Node := .FOR none condXltOne none bodyXisOne

/-- `while x < 1 { x = 1 }`. -/
def whileProg : Node := .WHILE condXltOne bodyXisOne

/-- The global state after interpreting `x = 0` on a fresh compiler. -/
def stx : State := (visit_node 9 (.ASSIGN (.ID "x") (.NUM (.INT 0))) 0 compiler_new).2

/-- `stx` with the freshly allocated (still empty) `<while>` child scope. -/
def stW : State := ⟨stx.ctxs ++ [⟨"<while>", some 0, SymbolTable.empty⟩]⟩

/-- `stW` after one body pass: the child scope now binds `x = 1`.  This is a
fixed point of the while loop: the condition keeps reading the outer `x = 0`
and the body keeps rewriting the child's `x` to the same value. -/
def stx1 : State := ⟨stx.ctxs ++ [⟨"<while>", some 0, ⟨[("x", .NUMBER ⟨.INT 1⟩)], []⟩⟩]⟩

mutual

/-- Nodes whose evaluation never allocates a context: everything except the
loop constructs (which allocate their child scope); `FUNCDEF` and `CALL`
are conservatively excluded. -/
def alloc_free : Node → Bool
  | .NUM _ | .STRING _ | .ACCESS _ => true
  | .BINOP l _ r => alloc_free l && alloc_free r
  | .UNRYOP _ n => alloc_free n
  | .ASSIGN _ v => alloc_free v
  | .IF cases els =>
    alloc_free_cases cases &&
      (match els with
       | some e => alloc_free e
       | none => true)
  | .WHILE _ _ | .FOR _ _ _ _ | .FUNCDEF _ _ _ | .CALL _ _ => false

/-- `alloc_free` over the condition/body pairs of an `IF` node. -/
def alloc_free_cases : List (Node × Node) → Bool
  | [] => true
  | (c, e) :: rest => alloc_free c && alloc_free e && alloc_free_cases rest

end

/-- A two-level chain for observing shadowing: the root binds `x = 1`. -/
def shadowParent : Context := ⟨"<module>", none, ⟨[("x", .NUMBER ⟨.INT 1⟩)], []⟩⟩

/-- An empty child scope of `shadowParent`. -/
def shadowChild : Context := ⟨"<child>", some 0, SymbolTable.empty⟩

/-- The store holding the two-level chain. -/
def shadowState : State := ⟨[shadowParent, shadowChild]⟩

/-! ## Theorems -/

/-- Setting an index of a list back to the element it already holds is a
no-op. -/
theorem list_set_self {α : Type} {l : List α} {i : Nat} {c : α}
    (h : l[i]? = some c) : l.set i c = l := by
  apply List.ext_getElem?
  intro n
  by_cases hn : i = n
  · subst hn
    have hlt : i < l.length := by
      by_contra hge
      rw [List.getElem?_eq_none (by omega)] at h
      exact Option.noConfusion h
    rw [List.getElem?_set_self hlt, h]
  · exact List.getElem?_set_ne hn

/-- C1: `pow` with a right-hand operand whose raw numeric value is the
integer `0` short-circuits to a `Number` holding `0` — for *every* left
number `x`, without computing any power (the result does not depend on
`x`); the same holds through the binary-operator dispatch, and the full
pipeline gives `interpret "2 ^ 0" = Number(Int(0))`, not `1`. -/
theorem C1_pow_zero_short_circuits :
    (∀ (x : ChNumber) (other : ChType),
       other.get_value_type = .ok (.INT 0) →
       x.pow other = .ok (.NUMBER ⟨.INT 0⟩))
    ∧ (∀ (x : ChNumber) (rv : ChType),
       rv.get_value_type = .ok (.INT 0) →
       binop_chvalue (.NUMBER x) .POW rv = .ok (.NUMBER ⟨.INT 0⟩))
    ∧ (interpret 50 "2 ^ 0" compiler_new).1 = .ok (.NUMBER ⟨.INT 0⟩) := by
  refine ⟨?_, ?_, rfl⟩
  · intro x other h
    simp [ChNumber.pow, h]
  · intro x rv h
    simp [binop_chvalue, chPow, ChNumber.pow, h]

/-- Witness for C1 at `x = 2`, `e = 0`. -/
theorem C1_pow_zero_short_circuits_witness :
    (ChType.NUMBER ⟨.INT 0⟩).get_value_type = .ok (.INT 0)
    ∧ ChNumber.pow ⟨.INT 2⟩ (.NUMBER ⟨.INT 0⟩) = .ok (.NUMBER ⟨.INT 0⟩) :=
  ⟨rfl, C1_pow_zero_short_circuits.1 ⟨.INT 2⟩ (.NUMBER ⟨.INT 0⟩) rfl⟩

/-- C4: division by a right operand whose *raw* numeric value (peeked via
`get_value_type`, before any conversion) is integer `0` or float `0.0`
fails with a `Runtime` error whose message is `Division by 0`, for every
left `Number`; in particular both `1 / 0` and `1.0 / 0` fail. -/
theorem C4_div_by_zero_errors :
    (∀ (x : ChNumber) (other : ChType),
       (other.get_value_type = .ok (.INT 0) ∨ other.get_value_type = .ok (.FLOAT 0)) →
       x.div other = .err ⟨.RuntimeError, "Division by 0"⟩)
    ∧ (∀ (x : ChNumber) (rv : ChType),
       (rv.get_value_type = .ok (.INT 0) ∨ rv.get_value_type = .ok (.FLOAT 0)) →
       binop_chvalue (.NUMBER x) .DIV rv = .err ⟨.RuntimeError, "Division by 0"⟩)
    ∧ (interpret 50 "1 / 0" compiler_new).1 = .err ⟨.RuntimeError, "Division by 0"⟩
    ∧ (interpret 50 "1.0 / 0" compiler_new).1 = .err ⟨.RuntimeError, "Division by 0"⟩ := by
  refine ⟨?_, ?_, rfl, rfl⟩
  · intro x other h
    rcases h with h | h <;> simp [ChNumber.div, h]
  · intro x rv h
    rcases h with h | h <;> simp [binop_chvalue, chDiv, ChNumber.div, h]

/-- Witness for C4 at `1 / 0`. -/
theorem C4_div_by_zero_errors_witness :
    ((ChType.NUMBER ⟨.INT 0⟩).get_value_type = .ok (.INT 0)
      ∨ (ChType.NUMBER ⟨.INT 0⟩).get_value_type = .ok (.FLOAT 0))
    ∧ ChNumber.div ⟨.INT 1⟩ (.NUMBER ⟨.INT 0⟩) = .err ⟨.RuntimeError, "Division by 0"⟩ :=
  ⟨Or.inl rfl, C4_div_by_zero_errors.1 ⟨.INT 1⟩ (.NUMBER ⟨.INT 0⟩) (Or.inl rfl)⟩

/-- C8: dividing a `Number` by a `None` or function value panics inside the
zero-check (`get_value_type` has no arm for those variants) instead of
returning a `Runtime` error — the division operation is not total over
those right-operand shapes; end to end, `1 / none` and `1 / print` panic. -/
theorem C8_div_panics_on_none_and_function :
    (∀ (x : ChNumber) (f : ChFunction),
       x.div (.FUNCTION f) =
         .panic ("could not get value type of type " ++ (ChType.FUNCTION f).display))
    ∧ (∀ (x : ChNumber), x.div .NONE = .panic "could not get value type of type none")
    ∧ (interpret 50 "1 / none" compiler_new).1 =
        .panic "could not get value type of type none"
    ∧ (interpret 50 "1 / print" compiler_new).1 =
        .panic "could not get value type of type rust function<print>" :=
  ⟨fun _ _ => rfl, fun _ => rfl, rfl, rfl⟩

/-- C9: `Lexer::new` indexes the first byte before any length check, so
`interpret` of the empty string panics (for every fuel and store) instead
of returning a value or an `Error`. -/
theorem C9_interpret_empty_panics :
    (∀ (fuel : Nat) (st : State),
       interpret fuel "" st =
         (.panic "index out of bounds: the len is 0 but the index is 0", st))
    ∧ Lexer_new [] = .panic "index out of bounds: the len is 0 but the index is 0" :=
  ⟨fun _ _ => rfl, rfl⟩

/-- C10 counterexample: the text `'+` ends in `+` yet tokenizes
successfully (the string builder consumes the trailing `+`), refuting
"for every source text whose final character is `+` or `-`, tokenization
panics". -/
theorem C10_trailing_sign_counterexample :
    tokenize "\x27+" = .ok [.STRING "+", .EOF] := by decide

/-- C10 (amended): whenever the scanning loop reaches a `+` or `-` that is
the last remaining character, the add/sub builder advances past it and
unwraps the absent current character — a panic, for any tokens
accumulated so far and any remaining fuel; in particular `1+` and `1-`
panic.  (Texts whose trailing `+`/`-` is consumed inside an earlier token,
e.g. a string literal, do not panic — see the counterexample.) -/
theorem C10_trailing_sign_panics :
    (∀ (toks : List Token) (fuel : Nat),
       parse_tokens_loop (fuel + 1) ['+'] toks =
         .panic "called Option::unwrap on a None value")
    ∧ (∀ (toks : List Token) (fuel : Nat),
       parse_tokens_loop (fuel + 1) ['-'] toks =
         .panic "called Option::unwrap on a None value")
    ∧ make_add ['+'] = .panic "called Option::unwrap on a None value"
    ∧ make_sub ['-'] = .panic "called Option::unwrap on a None value"
    ∧ tokenize "1+" = .panic "called Option::unwrap on a None value"
    ∧ tokenize "1-" = .panic "called Option::unwrap on a None value" :=
  ⟨fun _ _ => rfl, fun _ _ => rfl, rfl, rfl, rfl, rfl⟩

/-- C6 counterexample: tokenizing `1.2.3` does *not* succeed — the float
literal stops before the second dot, but the leftover `.` is not a valid
token start, so the lexer fails with `IllegalChar` naming `.`. -/
theorem C6_second_dot_counterexample :
    tokenize "1.2.3" = .err ⟨.IllegalCharError, "Lexer: found \x27.\x27"⟩ := by decide

/-- C6 (amended): the number builder terminates the literal just before a
second `.` without raising any error, handing back a float token and the
remainder beginning at that dot (for every digit pair and every remaining
input); the scanning loop then fails with `IllegalChar` at the dot, since
`.` does not begin any token.  `1.2` parses to the exact rational `6/5`. -/
theorem C6_second_dot_truncates :
    (∀ (a b : Char) (cs : List Char), a ∈ DIGITS → b ∈ DIGITS →
       make_number (a :: '.' :: b :: '.' :: cs) =
         (.FLOAT (parseDecimalRat [a, '.', b]), '.' :: cs))
    ∧ (∀ (cs : List Char) (toks : List Token) (fuel : Nat),
       parse_tokens_loop (fuel + 1) ('.' :: cs) toks =
         .err ⟨.IllegalCharError, "Lexer: found \x27.\x27"⟩)
    ∧ parseDecimalRat ['1', '.', '2'] = 6 / 5 := by
  refine ⟨?_, fun _ _ _ => rfl, ?_⟩
  · intro a b cs ha hb
    fin_cases ha <;> fin_cases hb <;> rfl
  · show ((1 : Int) : Rat) + ((2 : Int) : Rat) / (10 ^ (1 : Nat) : Rat) = 6 / 5
    norm_num

/-- Witness for C6, at the literal `1.2` with remainder `.3`. -/
theorem C6_second_dot_truncates_witness :
    ('1' ∈ DIGITS ∧ '2' ∈ DIGITS)
    ∧ make_number ('1' :: '.' :: '2' :: '.' :: ['3']) =
        (.FLOAT (parseDecimalRat ['1', '.', '2']), '.' :: ['3']) :=
  ⟨⟨by decide, by decide⟩,
    C6_second_dot_truncates.1 '1' '2' ['3'] (by decide) (by decide)⟩

/-- C7 counterexample: `_a` is a maximal `[A-Za-z_]+` run, yet it does not
lex as an identifier — the scanning loop only enters the identifier builder
on a letter, and `_` is an `IllegalChar`. -/
theorem C7_identifier_counterexample :
    tokenize "_a" = .err ⟨.IllegalCharError, "Lexer: found \x27_\x27"⟩ := by decide

/-- C7 (amended): the identifier builder consumes exactly the maximal run
of letters/underscores and reclassifies it as a keyword token exactly when
the spelling is in the fixed table (so keyword spellings can never become
identifier tokens); the scanning loop enters it on every letter head, but a
run *beginning* with an underscore fails with `IllegalChar` instead. -/
theorem C7_identifier_lexing :
    (∀ (cs acc : List Char),
       make_identifier_loop cs acc = (acc ++ cs.takeWhile idAllowed, cs.dropWhile idAllowed))
    ∧ (∀ (cs : List Char),
       make_identifier cs =
         ((match get_keyword (String.mk (cs.takeWhile idAllowed)) with
           | some k => TokenType.KEYWRD k
           | none => TokenType.ID (String.mk (cs.takeWhile idAllowed))), cs.dropWhile idAllowed))
    ∧ (∀ (c : Char) (cs : List Char) (toks : List Token) (fuel : Nat), c ∈ LETTERS →
       parse_tokens_loop (fuel + 1) (c :: cs) toks =
         parse_tokens_loop fuel (make_identifier (c :: cs)).2
           (toks ++ [(make_identifier (c :: cs)).1]))
    ∧ (∀ (cs : List Char) (toks : List Token) (fuel : Nat),
       parse_tokens_loop (fuel + 1) ('_' :: cs) toks =
         .err ⟨.IllegalCharError, "Lexer: found \x27_\x27"⟩) := by
  have loop_char : ∀ (cs acc : List Char),
      make_identifier_loop cs acc = (acc ++ cs.takeWhile idAllowed, cs.dropWhile idAllowed) := by
    intro cs
    induction cs with
    | nil => intro acc; simp [make_identifier_loop]
    | cons c rest ih =>
      intro acc
      by_cases hc : idAllowed c
      · simp [make_identifier_loop, hc, ih, List.takeWhile_cons, List.dropWhile_cons]
      · simp [make_identifier_loop, hc, List.takeWhile_cons, List.dropWhile_cons]
  refine ⟨loop_char, ?_, ?_, fun _ _ _ => rfl⟩
  · intro cs
    simp [make_identifier, loop_char cs []]
  · intro c cs toks fuel hc
    fin_cases hc <;> rfl

/-- Witness for C7, at the identifier `x` followed by a space. -/
theorem C7_identifier_lexing_witness :
    'x' ∈ LETTERS
    ∧ parse_tokens_loop 6 ('x' :: [' ']) [] =
        parse_tokens_loop 5 (make_identifier ('x' :: [' '])).2
          ([] ++ [(make_identifier ('x' :: [' '])).1]) :=
  ⟨by decide, C7_identifier_lexing.2.2.1 'x' [' '] [] 5 (by decide)⟩

/-- C3: assignment never modifies an ancestor scope.  `ctx_set_mut` leaves
every context other than its target untouched (it never walks to the
parent), and when the target's local table lacks the name, evaluating
`name = v` inserts a fresh binding into that innermost context only. -/
theorem C3_assign_targets_innermost :
    (∀ (st : State) (id : CtxId) (key : String) (v : ChType) (j : Nat), j ≠ id →
       ((ctx_set_mut st id key v).2).ctxs[j]? = st.ctxs[j]?)
    ∧ (∀ (st st1 : State) (ctx : CtxId) (c : Context) (name : String) (valueNode : Node)
        (v : ChType) (fuel : Nat),
       visit_node fuel valueNode ctx st = (.ok v, st1) →
       st1.ctxs[ctx]? = some c →
       c.symbol_table.contains_key name = false →
       visit_node (fuel + 1) (.ASSIGN (.ID name) valueNode) ctx st =
         (.ok v, ⟨st1.ctxs.set ctx { c with symbol_table :=
             ⟨c.symbol_table.table ++ [(name, v)], c.symbol_table.immutable⟩ }⟩)) := by
  constructor
  · intro st id key v j hj
    cases h : st.ctxs[id]? with
    | none => simp [ctx_set_mut, h]
    | some c => simp [ctx_set_mut, h, List.getElem?_set_ne (Ne.symm hj)]
  · intro st st1 ctx c name valueNode v fuel hv hc habs
    simp [visit_node, hv, ctx_set_mut, hc, SymbolTable.set_mut, habs]

/-- Witness for C3: assigning `x = 2` in an empty child of a root that
binds `x = 1` inserts the binding into the child only. -/
theorem C3_assign_targets_innermost_witness :
    (visit_node 3 (.NUM (.INT 2)) 1 shadowState = (.ok (.NUMBER ⟨.INT 2⟩), shadowState)
      ∧ shadowState.ctxs[1]? = some shadowChild
      ∧ shadowChild.symbol_table.contains_key "x" = false)
    ∧ visit_node 4 (.ASSIGN (.ID "x") (.NUM (.INT 2))) 1 shadowState =
        (.ok (.NUMBER ⟨.INT 2⟩), ⟨shadowState.ctxs.set 1 { shadowChild with symbol_table :=
            ⟨shadowChild.symbol_table.table ++ [("x", .NUMBER ⟨.INT 2⟩)],
              shadowChild.symbol_table.immutable⟩ }⟩) :=
  ⟨⟨rfl, rfl, rfl⟩,
    C3_assign_targets_innermost.2 shadowState shadowState 1 shadowChild "x"
      (.NUM (.INT 2)) (.NUMBER ⟨.INT 2⟩) 3 rfl rfl rfl⟩

/-- C5: rebinding a name that is present in the target scope's local table
and marked immutable fails: `ctx_set_mut` returns `false` with the store
*exactly* unchanged, and the assignment evaluates to a `Runtime`
const-violation error whose store is the one the right-hand side produced;
concretely, `true = 1` against the seeded globals errors and leaves the
store untouched, with `true` still bound to `Bool(true)`. -/
theorem C5_const_rebind_errors :
    (∀ (st : State) (id : CtxId) (c : Context) (key : String) (v : ChType),
       st.ctxs[id]? = some c →
       c.symbol_table.contains_key key = true →
       c.symbol_table.immutable.contains key = true →
       ctx_set_mut st id key v = (false, st))
    ∧ (∀ (st st1 : State) (ctx : CtxId) (c : Context) (name : String) (valueNode : Node)
        (v : ChType) (fuel : Nat),
       visit_node fuel valueNode ctx st = (.ok v, st1) →
       st1.ctxs[ctx]? = some c →
       c.symbol_table.contains_key name = true →
       c.symbol_table.immutable.contains name = true →
       visit_node (fuel + 1) (.ASSIGN (.ID name) valueNode) ctx st =
         (.err ⟨.RuntimeError, "cannot assign " ++ v.display ++ " to const "
             ++ String.mk [dquoteChar] ++ name ++ String.mk [dquoteChar]⟩, st1))
    ∧ visit_node 9 (.ASSIGN (.ID "true") (.NUM (.INT 1))) 0 compiler_new =
        (.err ⟨.RuntimeError, "cannot assign 1 to const \x22true\x22"⟩, compiler_new)
    ∧ ctx_get compiler_new 0 "true" = some (.BOOL ⟨true⟩) := by
  have key_step : ∀ (st : State) (id : CtxId) (c : Context) (key : String) (v : ChType),
      st.ctxs[id]? = some c →
      c.symbol_table.contains_key key = true →
      c.symbol_table.immutable.contains key = true →
      ctx_set_mut st id key v = (false, st) := by
    intro st id c key v hc hk hi
    simp only [ctx_set_mut, hc, SymbolTable.set_mut, hk, hi, if_true, if_false]
    rw [show ({ c with symbol_table := c.symbol_table } : Context) = c from rfl,
      list_set_self hc]
  refine ⟨key_step, ?_, rfl, rfl⟩
  intro st st1 ctx c name valueNode v fuel hv hc hk hi
  simp [visit_node, hv, key_step st1 ctx c name v hc hk hi]

/-- Witness for C5: the pre-seeded immutable binding `true`. -/
theorem C5_const_rebind_errors_witness :
    (compiler_new.ctxs[0]? = some ⟨"<module>", none, global_table⟩
      ∧ global_table.contains_key "true" = true
      ∧ global_table.immutable.contains "true" = true)
    ∧ ctx_set_mut compiler_new 0 "true" (.NUMBER ⟨.INT 1⟩) = (false, compiler_new) :=
  ⟨⟨rfl, rfl, rfl⟩,
    C5_const_rebind_errors.1 compiler_new 0 ⟨"<module>", none, global_table⟩ "true"
      (.NUMBER ⟨.INT 1⟩) rfl rfl rfl⟩

/-- Variable access never changes the store. -/
theorem visit_access_node_state (t : Token) (ctx : CtxId) (st : State) :
    (visit_access_node t ctx st).2 = st := by
  cases t <;> try rfl
  case ID s => cases h : ctx_get st ctx s <;> simp [visit_access_node, h]

/-- `ctx_set_mut` preserves the number of allocated contexts. -/
theorem ctx_set_mut_ctxs_length (st : State) (id : CtxId) (k : String) (v : ChType) :
    ((ctx_set_mut st id k v).2).ctxs.length = st.ctxs.length := by
  cases h : st.ctxs[id]? <;> simp [ctx_set_mut, h]

/-- Evaluating an `alloc_free` node never changes the number of allocated
contexts (joint statement for the three mutually recursive evaluation
functions it can pass through). -/
theorem visit_ctxs_length :
    ∀ fuel : Nat,
      (∀ (n : Node) (ctx : CtxId) (st : State), alloc_free n = true →
        ((visit_node fuel n ctx st).2).ctxs.length = st.ctxs.length)
      ∧ (∀ (cs : List (Node × Node)) (els : Option Node) (ctx : CtxId) (st : State),
          alloc_free_cases cs = true →
          (match els with | some e => alloc_free e | none => true) = true →
          ((visit_if_cases fuel cs els ctx st).2).ctxs.length = st.ctxs.length)
      ∧ (∀ (l : Node) (op : Token) (r : Node) (ctx : CtxId) (st : State),
          alloc_free l = true → alloc_free r = true →
          ((in_de_crement fuel l op r ctx st).2).ctxs.length = st.ctxs.length) := by
  intro fuel
  induction fuel with
  | zero => exact ⟨fun _ _ _ _ => rfl, fun _ _ _ _ _ _ => rfl, fun _ _ _ _ _ _ _ => rfl⟩
  | succ f ih =>
    obtain ⟨ihn, ihc, ihi⟩ := ih
    refine ⟨?_, ?_, ?_⟩
    · intro n ctx st hn
      cases n with
      | NUM t => rfl
      | STRING t => rfl
      | ACCESS t =>
        show ((visit_access_node t ctx st).2).ctxs.length = st.ctxs.length
        rw [visit_access_node_state]
      | UNRYOP op m =>
        have hm : alloc_free m = true := by simpa [alloc_free] using hn
        have h1 := ihn m ctx st hm
        rcases hv : visit_node f m ctx st with ⟨o, st1⟩
        simp only [hv] at h1
        cases o <;> simpa [visit_node, hv] using h1
      | BINOP l op r =>
        have hlr : alloc_free l = true ∧ alloc_free r = true := by
          simpa [alloc_free, Bool.and_eq_true] using hn
        obtain ⟨hl, hr⟩ := hlr
        by_cases hop : (match_enum_type op .INCRMNT || match_enum_type op .DECRMNT) = true
        · simpa [visit_node, hop] using ihi l op r ctx st hl hr
        · have h1 := ihn l ctx st hl
          rcases hv : visit_node f l ctx st with ⟨o, st1⟩
          simp only [hv] at h1
          cases o with
          | ok lv =>
            have h2 := ihn r ctx st1 hr
            rcases hv2 : visit_node f r ctx st1 with ⟨o2, st2⟩
            simp only [hv2] at h2
            cases o2 <;> simp [visit_node, hop, hv, hv2] <;> omega
          | err e => simpa [visit_node, hop, hv] using h1
          | panic m => simpa [visit_node, hop, hv] using h1
          | timeout => simpa [visit_node, hop, hv] using h1
      | ASSIGN id v' =>
        have hv' : alloc_free v' = true := by simpa [alloc_free] using hn
        have h1 := ihn v' ctx st hv'
        rcases hv : visit_node f v' ctx st with ⟨o, st1⟩
        simp only [hv] at h1
        cases o with
        | ok val =>
          cases id <;> try simpa [visit_node, hv] using h1
          case ID name =>
            have h2 := ctx_set_mut_ctxs_length st1 ctx name val
            rcases hsm : ctx_set_mut st1 ctx name val with ⟨b, st2⟩
            simp only [hsm] at h2
            cases b <;> simp [visit_node, hv, hsm] <;> omega
        | err e => simpa [visit_node, hv] using h1
        | panic m => simpa [visit_node, hv] using h1
        | timeout => simpa [visit_node, hv] using h1
      | IF cs els =>
        cases els with
        | none =>
          have hn' : (alloc_free_cases cs && true) = true := hn
          rw [Bool.and_eq_true] at hn'
          simpa [visit_node] using ihc cs none ctx st hn'.1 rfl
        | some e =>
          have hn' : (alloc_free_cases cs && alloc_free e) = true := hn
          rw [Bool.and_eq_true] at hn'
          simpa [visit_node] using ihc cs (some e) ctx st hn'.1 hn'.2
      | WHILE cond body => simp [alloc_free] at hn
      | FOR c1 c2 c3 body => simp [alloc_free] at hn
      | FUNCDEF a b c => simp [alloc_free] at hn
      | CALL a b => simp [alloc_free] at hn
    · intro cs els ctx st h1 h2
      cases cs with
      | nil =>
        cases els with
        | some e => simpa [visit_if_cases] using ihn e ctx st (by simpa using h2)
        | none => rfl
      | cons ce rest =>
        obtain ⟨cnd, ex⟩ := ce
        have hsplit : alloc_free cnd = true ∧ alloc_free ex = true ∧
            alloc_free_cases rest = true := by
          simpa [alloc_free_cases, Bool.and_eq_true, and_assoc] using h1
        obtain ⟨hcnd, hex, hrest⟩ := hsplit
        have hc1 := ihn cnd ctx st hcnd
        rcases hv : visit_node f cnd ctx st with ⟨o, st1⟩
        simp only [hv] at hc1
        cases o with
        | ok v =>
          by_cases ht : v.is_true
          · have hb := ihn ex ctx st1 hex
            rcases hv2 : visit_node f ex ctx st1 with ⟨o2, st2⟩
            simp only [hv2] at hb
            simp [visit_if_cases, hv, ht, hv2]
            omega
          · have hr := ihc rest els ctx st1 hrest h2
            rcases hv2 : visit_if_cases f rest els ctx st1 with ⟨o2, st2⟩
            simp only [hv2] at hr
            simp [visit_if_cases, hv, ht, hv2]
            omega
        | err e => simpa [visit_if_cases, hv] using hc1
        | panic m => simpa [visit_if_cases, hv] using hc1
        | timeout => simpa [visit_if_cases, hv] using hc1
    · intro l op r ctx st hl hr
      have h1 := ihn l ctx st hl
      rcases hv : visit_node f l ctx st with ⟨o, st1⟩
      simp only [hv] at h1
      cases o with
      | ok lv =>
        have h2 := ihn r ctx st1 hr
        rcases hv2 : visit_node f r ctx st1 with ⟨o2, st2⟩
        simp only [hv2] at h2
        cases o2 with
        | ok rv =>
          cases l <;> try (simp [in_de_crement, hv, hv2] ; omega)
          case ACCESS var_name =>
            rcases ho : (match op with
                 | .INCRMNT => chAddEqual lv rv
                 | .DECRMNT => chSubEqual lv rv
                 | t => .panic ("called in/decrement on " ++ tokText t)) with o3
            cases o3 with
            | ok res =>
              cases var_name <;> try (simp [in_de_crement, hv, hv2, ho] ; omega)
              case ID nm =>
                have h3 := ctx_set_mut_ctxs_length st2 ctx nm res
                simp [in_de_crement, hv, hv2, ho]
                omega
            | err e => simp [in_de_crement, hv, hv2, ho]; omega
            | panic m => simp [in_de_crement, hv, hv2, ho]; omega
            | timeout => simp [in_de_crement, hv, hv2, ho]; omega
        | err e => simp [in_de_crement, hv, hv2]; omega
        | panic m => simp [in_de_crement, hv, hv2]; omega
        | timeout => simp [in_de_crement, hv, hv2]; omega
      | err e => simpa [in_de_crement, hv] using h1
      | panic m => simpa [in_de_crement, hv] using h1
      | timeout => simpa [in_de_crement, hv] using h1

/-- The while loop allocates nothing itself: with `alloc_free` condition
and body, it preserves the number of contexts. -/
theorem while_loop_ctxs_length :
    ∀ (fuel : Nat) (cond body : Node) (outer child : CtxId) (st : State),
      alloc_free cond = true → alloc_free body = true →
      ((while_loop fuel cond body outer child st).2).ctxs.length = st.ctxs.length := by
  intro fuel
  induction fuel with
  | zero => intros; rfl
  | succ f ih =>
    intro cond body outer child st hc hb
    have h1 := (visit_ctxs_length f).1 cond outer st hc
    rcases hv : visit_node f cond outer st with ⟨o, st1⟩
    simp only [hv] at h1
    cases o with
    | ok v =>
      by_cases ht : v.is_true
      · have h2 := (visit_ctxs_length f).1 body child st1 hb
        rcases hv2 : visit_node f body child st1 with ⟨o2, st2⟩
        simp only [hv2] at h2
        cases o2 with
        | ok w =>
          have h3 := ih cond body outer child st2 hc hb
          simp [while_loop, hv, ht, hv2]
          omega
        | err e => simp [while_loop, hv, ht, hv2]; omega
        | panic m => simp [while_loop, hv, ht, hv2]; omega
        | timeout => simp [while_loop, hv, ht, hv2]; omega
      · simp [while_loop, hv, ht]; omega
    | err e => simpa [while_loop, hv] using h1
    | panic m => simpa [while_loop, hv] using h1
    | timeout => simpa [while_loop, hv] using h1

/-- The for loop allocates nothing itself: with `alloc_free` condition,
step and body, it preserves the number of contexts. -/
theorem for_loop_ctxs_length :
    ∀ (fuel : Nat) (c2 : Node) (c3 : Option Node) (body : Node) (child : CtxId) (st : State),
      alloc_free c2 = true →
      (match c3 with | some c => alloc_free c | none => true) = true →
      alloc_free body = true →
      ((for_loop fuel c2 c3 body child st).2).ctxs.length = st.ctxs.length := by
  intro fuel
  induction fuel with
  | zero => intros; rfl
  | succ f ih =>
    intro c2 c3 body child st hc h3 hb
    have h1 := (visit_ctxs_length f).1 c2 child st hc
    rcases hv : visit_node f c2 child st with ⟨o, st1⟩
    simp only [hv] at h1
    cases o with
    | ok v =>
      by_cases ht : v.is_true
      · have h2 := (visit_ctxs_length f).1 body child st1 hb
        rcases hv2 : visit_node f body child st1 with ⟨o2, st2⟩
        simp only [hv2] at h2
        cases o2 with
        | ok w =>
          cases c3 with
          | none =>
            have h4 := ih c2 none body child st2 hc rfl hb
            simp [for_loop, hv, ht, hv2]
            omega
          | some cstep =>
            have hstep : alloc_free cstep = true := h3
            have h5 := (visit_ctxs_length f).1 cstep child st2 hstep
            rcases hv3 : visit_node f cstep child st2 with ⟨o3, st3⟩
            simp only [hv3] at h5
            cases o3 with
            | ok u =>
              have h4 := ih c2 (some cstep) body child st3 hc h3 hb
              simp [for_loop, hv, ht, hv2, hv3]
              omega
            | err e => simp [for_loop, hv, ht, hv2, hv3]; omega
            | panic m => simp [for_loop, hv, ht, hv2, hv3]; omega
            | timeout => simp [for_loop, hv, ht, hv2, hv3]; omega
        | err e => simp [for_loop, hv, ht, hv2]; omega
        | panic m => simp [for_loop, hv, ht, hv2]; omega
        | timeout => simp [for_loop, hv, ht, hv2]; omega
      · simp [for_loop, hv, ht]; omega
    | err e => simpa [for_loop, hv] using h1
    | panic m => simpa [for_loop, hv] using h1
    | timeout => simpa [for_loop, hv] using h1

/-- One full pass of the stuck while loop from its fixed-point state: the
condition (read in the *outer* scope) is still `0 < 1`, the body rewrites
the child's `x` to the value it already has, and the loop recurs on the
identical store. -/
theorem while_fixed_step (g : Nat) :
    while_loop (g + 3) condXltOne bodyXisOne 0 1 stx1 =
      while_loop (g + 2) condXltOne bodyXisOne 0 1 stx1 := rfl

/-- The first pass: from the freshly allocated empty child scope, one body
evaluation produces the fixed-point store `stx1`. -/
theorem while_first_step (g : Nat) :
    while_loop (g + 3) condXltOne bodyXisOne 0 1 stW =
      while_loop (g + 2) condXltOne bodyXisOne 0 1 stx1 := rfl

/-- From the fixed-point store the while loop exhausts any amount of fuel:
the condition, evaluated in the outer scope, never sees the child's `x`. -/
theorem while_stx1_timeout :
    ∀ f, (while_loop f condXltOne bodyXisOne 0 1 stx1).1 = .timeout := by
  intro f
  induction f using Nat.strong_induction_on with
  | _ f ih =>
    rcases f with _ | (_ | (_ | g))
    · rfl
    · rfl
    · rfl
    · rw [while_fixed_step g]
      exact ih (g + 2) (by omega)

/-- C2: each loop construct creates exactly one child environment per
construct (never one per iteration): with non-allocating parts, a `WHILE`
or `FOR` evaluation grows the store by exactly one context, however many
iterations run.  Body-local bindings therefore persist across iterations,
and the condition scopes differ: `for ; x < 1; { x = 1 }` from a global
`x = 0` terminates with `None`, leaving the outer `x` at `0` and the
loop's single child scope holding the body's `x = 1` (the `for` condition
read the child scope and saw it); the analogous
`while x < 1 { x = 1 }` never terminates for any fuel, because the
`while` condition is evaluated against the outer scope only. -/
theorem C2_loop_single_child_scope :
    (∀ (cond body : Node) (ctx : CtxId) (st : State) (fuel : Nat),
       alloc_free cond = true → alloc_free body = true →
       ((visit_node (fuel + 1) (.WHILE cond body) ctx st).2).ctxs.length =
         st.ctxs.length + 1)
    ∧ (∀ (c1 : Option Node) (c2 : Node) (c3 : Option Node) (body : Node) (ctx : CtxId)
        (st : State) (fuel : Nat),
       (match c1 with | some c => alloc_free c | none => true) = true →
       alloc_free c2 = true →
       (match c3 with | some c => alloc_free c | none => true) = true →
       alloc_free body = true →
       ((visit_node (fuel + 1) (.FOR c1 c2 c3 body) ctx st).2).ctxs.length =
         st.ctxs.length + 1)
    ∧ visit_node 30 forProg 0 stx =
        (.ok .NONE, ⟨stx.ctxs ++ [⟨"<for>", some 0, ⟨[("x", .NUMBER ⟨.INT 1⟩)], []⟩⟩]⟩)
    ∧ ctx_get (visit_node 30 forProg 0 stx).2 0 "x" = some (.NUMBER ⟨.INT 0⟩)
    ∧ (∀ fuel : Nat, (visit_node fuel whileProg 0 stx).1 = .timeout) := by
  refine ⟨?_, ?_, rfl, rfl, ?_⟩
  · intro cond body ctx st fuel hc hb
    have h := while_loop_ctxs_length fuel cond body ctx st.ctxs.length
      ⟨st.ctxs ++ [⟨"<while>", some ctx, SymbolTable.empty⟩]⟩ hc hb
    simpa [visit_node, Context_from_parent] using h
  · intro c1 c2 c3 body ctx st fuel h1 h2 h3 hb
    cases c1 with
    | none =>
      have h := for_loop_ctxs_length fuel c2 c3 body st.ctxs.length
        ⟨st.ctxs ++ [⟨"<for>", some ctx, SymbolTable.empty⟩]⟩ h2 h3 hb
      simpa [visit_node, Context_from_parent] using h
    | some cinit =>
      have hinit : alloc_free cinit = true := h1
      have ha := (visit_ctxs_length fuel).1 cinit st.ctxs.length
        ⟨st.ctxs ++ [⟨"<for>", some ctx, SymbolTable.empty⟩]⟩ hinit
      rcases hv : visit_node fuel cinit st.ctxs.length
          ⟨st.ctxs ++ [⟨"<for>", some ctx, SymbolTable.empty⟩]⟩ with ⟨o, st2⟩
      simp only [hv] at ha
      simp only [List.length_append, List.length_cons, List.length_nil] at ha
      cases o with
      | ok w =>
        have h := for_loop_ctxs_length fuel c2 c3 body st.ctxs.length st2 h2 h3 hb
        simp [visit_node, Context_from_parent, hv]
        omega
      | err e => simp [visit_node, Context_from_parent, hv]; omega
      | panic m => simp [visit_node, Context_from_parent, hv]; omega
      | timeout => simp [visit_node, Context_from_parent, hv]; omega
  · intro fuel
    cases fuel with
    | zero => rfl
    | succ f =>
      show (while_loop f condXltOne bodyXisOne 0 1 stW).1 = .timeout
      rcases f with _ | (_ | (_ | g))
      · rfl
      · rfl
      · rfl
      · rw [while_first_step g]
        exact while_stx1_timeout (g + 2)

/-- Witness for C2 at the concrete loop parts `x < 1` / `x = 1` on the
fresh global store. -/
theorem C2_loop_single_child_scope_witness :
    (alloc_free condXltOne = true ∧ alloc_free bodyXisOne = true)
    ∧ ((visit_node 21 (.WHILE condXltOne bodyXisOne) 0 compiler_new).2).ctxs.length =
        compiler_new.ctxs.length + 1 :=
  ⟨⟨rfl, rfl⟩, C2_loop_single_child_scope.1 condXltOne bodyXisOne 0 compiler_new 20 rfl rfl⟩

end Chronos
